import Mathlib

/-!
# IAM resource planning of the cluster, node group and service account stacks

A shallow embedding of `pkg/cfn/builder/iam.go`: the three planners
(`ClusterResourceSet.addResourcesForIAM`, `NodeGroupResourceSet.addResourcesForIAM`,
`IAMServiceAccountResourceSet.AddAllResources`) as state-passing functions.

Conventions of the embedding.

* A Go method that mutates its receiver takes the receiver's state and returns the new state.
* A Go `error` result is an `Option Error`; `none` is `nil`.  A method with an `error` result
  returns the state it reached together with that result; a method without a result returns the
  state only.
* A Go map is an association list in insertion order (`Map`).
* A Go `*string` / `*bool` is an `Option`; `nil` is `none`.
* A collector closure `func(v string) error` that writes to the captured specification is a
  function from the value and the specification to the new specification and the error result.
* Helpers of the package that live in other files (`newResource`, `defineOutput`, ...) are
  modelled from the specification; each such definition says so in its doc comment.  Where the
  specification lets such a helper fail, the helper yields the failure next to the state and
  the value it returns.  No call site in the source looks at it: the callers use or discard the
  one value and go on.
-/

namespace Builder

/-! ## Maps -/

/-- A Go map, kept as an association list in insertion order. -/
abbrev Map (κ α : Type) := List (κ × α)

/-- Lookup of a key, `m[k]` with the presence flag. -/
def Map.get? {κ α : Type} [DecidableEq κ] : Map κ α → κ → Option α
  | [], _ => none
  | (k', v) :: m, k => if k' = k then some v else Map.get? m k

/-- Whether a key is present. -/
def Map.contains {κ α : Type} [DecidableEq κ] (m : Map κ α) (k : κ) : Bool :=
  (Map.get? m k).isSome

/-- Map assignment `m[k] = v`: replaces the value of a present key, adds an absent one. -/
def Map.set {κ α : Type} [DecidableEq κ] : Map κ α → κ → α → Map κ α
  | [], k, v => [(k, v)]
  | (k', v') :: m, k, v => if k' = k then (k, v) :: m else (k', v') :: Map.set m k v

/-! ## Errors and output names -/

/-- Names of stack outputs.  The constants of package `outputs` are not in the source; each one
used by the planners is its own symbolic name, and `literal` is a name given as a string. -/
inductive OutputName
  | ClusterServiceRoleARN
  | NodeGroupInstanceProfileARN
  | NodeGroupInstanceRoleARN
  | literal (name : String)
  deriving DecidableEq, Repr

/-- Go `error` values that occur in planning and in output resolution. -/
inductive Error
  | DuplicateNameError (name : String)
  | DuplicateOutputError (name : OutputName)
  | RoleImportError (msg : String)
  | other (msg : String)
  deriving DecidableEq, Repr

/-- Fields of a specification that this file neither reads nor writes. -/
abbrev OtherFields := List (String × String)

/-! ## Constants of the source -/

def iamPolicyAmazonEKSClusterPolicy : String := "AmazonEKSClusterPolicy"
def iamPolicyAmazonEKSVPCResourceController : String := "AmazonEKSVPCResourceController"
def iamPolicyAmazonEKSWorkerNodePolicy : String := "AmazonEKSWorkerNodePolicy"
def iamPolicyAmazonEKSCNIPolicy : String := "AmazonEKS_CNI_Policy"
def iamPolicyAmazonEC2ContainerRegistryPowerUser : String := "AmazonEC2ContainerRegistryPowerUser"
def iamPolicyAmazonEC2ContainerRegistryReadOnly : String := "AmazonEC2ContainerRegistryReadOnly"
def iamPolicyCloudWatchAgentServerPolicy : String := "CloudWatchAgentServerPolicy"
def iamPolicyAmazonEKSFargatePodExecutionRolePolicy : String :=
  "AmazonEKSFargatePodExecutionRolePolicy"

def cfnIAMInstanceRoleName : String := "NodeInstanceRole"
def cfnIAMInstanceProfileName : String := "NodeInstanceProfile"

def iamDefaultNodePolicies : List String := [iamPolicyAmazonEKSWorkerNodePolicy]

/-! ## Template values and resources (goformation) -/

/-- Values placed in resource properties and outputs: `gfnt.Value`s, and the `interface{}`
values handed to `defineOutput`. -/
inductive Value
  /-- The value `gfnt.NewString s`, or a Go string passed as it is. -/
  | str (s : String)
  /-- A Go `*string` passed as it is. -/
  | strPtr (p : Option String)
  /-- The value `gfnt.MakeRef name`: a reference to a resource of the graph. -/
  | ref (name : String)
  /-- The value `gfnt.MakeFnGetAttString name att`: an attribute of a resource of the graph. -/
  | getAtt (name att : String)
  /-- An element of the result of `makePolicyARNs`. -/
  | policyARN (policy : String)
  /-- The result of `makeName`. -/
  | stackName (name : String)
  /-- The result of `MakeServiceRef`. -/
  | serviceRef (servicePrincipalName : String)
  deriving DecidableEq, Repr

/-- Modelled from the spec: `makePolicyARNs` is missing from the source; it turns each managed
policy name into the managed-policy reference of that name, in the same order. -/
def makePolicyARNs (policyNames : List String) : List Value :=
  policyNames.map Value.policyARN

/-- Modelled from the spec: `makeName` is missing from the source; it yields the name a policy
resource is given, derived from its logical name. -/
def makeName (name : String) : Value := Value.stackName name

/-- Modelled from the spec: `MakeServiceRef` is missing from the source; it yields the service
principal of the named service. -/
def MakeServiceRef (servicePrincipalName : String) : Value :=
  Value.serviceRef servicePrincipalName

/-- The `resources interface{}` argument of `attachAllowPolicy`: a single pattern or a sequence
of patterns. -/
inductive ResourcePattern
  | single (pattern : String)
  | many (patterns : List String)
  deriving DecidableEq, Repr

/-- One statement of a policy document: the map literal of `attachAllowPolicy`. -/
structure Statement where
  Effect : String
  Resource : ResourcePattern
  Action : List String
  deriving DecidableEq, Repr

/-- Policy documents of package `cft`. -/
inductive PolicyDocument
  /-- The document `cft.MakePolicyDocument statements...` -/
  | statements (l : List Statement)
  /-- The document `cft.MakeAssumeRolePolicyDocumentForServices services...` -/
  | assumeRoleForServices (services : List Value)
  deriving DecidableEq, Repr

/-- The struct `gfniam.Role`, with the fields this file sets. -/
structure Role where
  AssumeRolePolicyDocument : PolicyDocument
  ManagedPolicyArns : List Value
  PermissionsBoundary : Option Value := none
  deriving DecidableEq, Repr

/-- The struct `gfniam.Policy`. -/
structure Policy where
  PolicyName : Value
  Roles : List Value
  PolicyDocument : PolicyDocument
  deriving DecidableEq, Repr

/-- The struct `gfniam.InstanceProfile`. -/
structure InstanceProfile where
  Path : Value
  Roles : List Value
  deriving DecidableEq, Repr

/-- A resource of the graph. -/
inductive Resource
  | Role (r : Role)
  | Policy (p : Policy)
  | InstanceProfile (p : InstanceProfile)
  deriving DecidableEq, Repr

/-- A stack output: its value and whether it is exported. -/
structure Output where
  Value : Value
  Export : Bool
  deriving DecidableEq, Repr

/-- The resource graph: named resources and named outputs. -/
structure Template where
  Resources : Map String Resource := []
  Outputs : Map OutputName Output := []
  deriving DecidableEq, Repr

/-! ## Collectors and the resource set -/

/-- An `outputs.Collector`, `func(v string) error`, over a specification of type `σ`. -/
abbrev Collector (σ : Type) := String → σ → σ × Option Error

/-- An `outputs.CollectorSet`: a map from output name to collector. -/
abbrev CollectorSet (σ : Type) := Map OutputName (Collector σ)

/-- The collector of an output that has nothing to write back. -/
def doNothing {σ : Type} : Collector σ := fun _ spec => (spec, none)

/-- The struct `resourceSet`: the graph, the output bindings and the two control flags. -/
structure resourceSet (σ : Type) where
  template : Template := {}
  outputs : CollectorSet σ := []
  withIAM : Bool := false
  withNamedIAM : Bool := false

/-- Modelled from the spec: `resourceSet.newResource` is missing from the source.  It is the
`declare` of the resource graph: when the name is already declared it fails with
`DuplicateNameError` and leaves the graph unchanged, otherwise it adds the resource.  The Go
function returns a single value, the reference to the name, which the call sites use or discard.
The result here is the state, that value, and the failure, which no call site looks at. -/
def resourceSet.newResource {σ : Type} (r : resourceSet σ) (name : String) (resource : Resource) :
    resourceSet σ × Value × Option Error :=
  if Map.contains r.template.Resources name then
    (r, Value.ref name, some (Error.DuplicateNameError name))
  else
    ({ r with template := { r.template with
          Resources := Map.set r.template.Resources name resource } },
      Value.ref name, none)

/-- Modelled from the spec: `resourceSet.defineOutput` is missing from the source.  It records
the write-back in the collector set, a map that holds one binding per output name, and binds
the output in the resource graph; that `bindOutput` fails with `DuplicateOutputError` when the
output name is already used and then leaves the outputs of the graph unchanged.  The call sites
are statements; the result here is the state and the failure, which no call site looks at. -/
def resourceSet.defineOutput {σ : Type} (r : resourceSet σ) (name : OutputName) (value : Value)
    (export_ : Bool) (fn : Collector σ) : resourceSet σ × Option Error :=
  let r : resourceSet σ := { r with outputs := Map.set r.outputs name fn }
  if Map.contains r.template.Outputs name then
    (r, some (Error.DuplicateOutputError name))
  else
    ({ r with template := { r.template with
          Outputs := Map.set r.template.Outputs name { Value := value, Export := export_ } } },
      none)

/-- Modelled from the spec: `resourceSet.defineOutputFromAtt` is missing from the source.  It
binds the output to the attribute `att` of the resource `logicalName`. -/
def resourceSet.defineOutputFromAtt {σ : Type} (r : resourceSet σ) (name : OutputName)
    (logicalName att : String) (export_ : Bool) (fn : Collector σ) :
    resourceSet σ × Option Error :=
  r.defineOutput name (Value.getAtt logicalName att) export_ fn

/-- Modelled from the spec: `resourceSet.defineOutputWithoutCollector` is missing from the
source.  It binds a pass-through output: the value is the one given, and the write-back has
nothing to write. -/
def resourceSet.defineOutputWithoutCollector {σ : Type} (r : resourceSet σ) (name : OutputName)
    (value : Value) (export_ : Bool) : resourceSet σ × Option Error :=
  r.defineOutput name value export_ doNothing

/-- The method `attachAllowPolicy` (lines 41-51).  It has no result, and the value that
`newResource` returns is discarded. -/
def resourceSet.attachAllowPolicy {σ : Type} (c : resourceSet σ) (name : String)
    (refRole : Value) (resources : ResourcePattern) (actions : List String) : resourceSet σ :=
  (c.newResource name (Resource.Policy {
      PolicyName := makeName name
      Roles := [refRole]
      PolicyDocument := PolicyDocument.statements
        [{ Effect := "Allow", Resource := resources, Action := actions }] })).1

/-! ## Cluster -/

/-- Modelled from the spec: `api.IsSetAndNonEmptyString` is missing from the source; it holds
of a pointer that is set and points to a non-empty string. -/
def api.IsSetAndNonEmptyString (s : Option String) : Bool :=
  match s with
  | some v => v != ""
  | none => false

/-- Modelled from the spec: `api.IsDisabled` is missing from the source; it holds of a flag
that is explicitly disabled, that is set and false. -/
def api.IsDisabled (b : Option Bool) : Bool :=
  match b with
  | some v => !v
  | none => false

/-- The fields of `api.ClusterIAM` used by this file. -/
structure ClusterIAM where
  ServiceRoleARN : Option String := none
  ServiceRolePermissionsBoundary : Option String := none
  VPCResourceControllerPolicy : Option Bool := none
  other : OtherFields := []
  deriving DecidableEq, Repr

/-- The cluster specification `api.ClusterConfig`. -/
structure ClusterConfig where
  IAM : ClusterIAM := {}
  other : OtherFields := []
  deriving DecidableEq, Repr

/-- The struct `ClusterResourceSet`: the resource set and the specification it plans for. -/
structure ClusterResourceSet where
  rs : resourceSet ClusterConfig := {}
  spec : ClusterConfig := {}

/-- The method `WithIAM` (lines 54-56). -/
def ClusterResourceSet.WithIAM (c : ClusterResourceSet) : Bool := c.rs.withIAM

/-- The method `WithNamedIAM` (lines 59-61). -/
def ClusterResourceSet.WithNamedIAM (c : ClusterResourceSet) : Bool := c.rs.withNamedIAM

/-- Modelled from the spec: `ClusterResourceSet.newResource` is missing from the source; it
declares the resource in the graph of the underlying resource set. -/
def ClusterResourceSet.newResource (c : ClusterResourceSet) (name : String)
    (resource : Resource) : ClusterResourceSet × Value × Option Error :=
  ({ c with rs := (c.rs.newResource name resource).1 },
    (c.rs.newResource name resource).2.1, (c.rs.newResource name resource).2.2)

/-- The collector of lines 107-110: `c.spec.IAM.ServiceRoleARN = &v`. -/
def ClusterResourceSet.collectServiceRoleARN : Collector ClusterConfig :=
  fun v spec => ({ spec with IAM := { spec.IAM with ServiceRoleARN := some v } }, none)

/-- The method `ClusterResourceSet.addResourcesForIAM` (lines 63-111).  It has no result. -/
def ClusterResourceSet.addResourcesForIAM (c : ClusterResourceSet) : ClusterResourceSet :=
  let c : ClusterResourceSet := { c with rs := { c.rs with withNamedIAM := false } }
  if api.IsSetAndNonEmptyString c.spec.IAM.ServiceRoleARN then
    let c : ClusterResourceSet := { c with rs := { c.rs with withIAM := false } }
    let rs : resourceSet ClusterConfig :=
      (c.rs.defineOutputWithoutCollector OutputName.ClusterServiceRoleARN
        (Value.strPtr c.spec.IAM.ServiceRoleARN) true).1
    { c with rs := rs }
  else
    let c : ClusterResourceSet := { c with rs := { c.rs with withIAM := true } }
    let managedPolicyArns : List String := [iamPolicyAmazonEKSClusterPolicy]
    let managedPolicyArns : List String :=
      if !api.IsDisabled c.spec.IAM.VPCResourceControllerPolicy then
        managedPolicyArns ++ [iamPolicyAmazonEKSVPCResourceController]
      else managedPolicyArns
    let role : Role := {
      AssumeRolePolicyDocument := PolicyDocument.assumeRoleForServices
        [MakeServiceRef "EKS", MakeServiceRef "EKSFargatePods"]
      ManagedPolicyArns := makePolicyARNs managedPolicyArns }
    let role : Role :=
      if api.IsSetAndNonEmptyString c.spec.IAM.ServiceRolePermissionsBoundary then
        -- the dereference is guarded by the test: the pointer is set
        let boundary : String := c.spec.IAM.ServiceRolePermissionsBoundary.getD ""
        { role with PermissionsBoundary := some (Value.str boundary) }
      else role
    let refSR : Value := (c.newResource "ServiceRole" (Resource.Role role)).2.1
    let c : ClusterResourceSet := (c.newResource "ServiceRole" (Resource.Role role)).1
    let rs : resourceSet ClusterConfig :=
      c.rs.attachAllowPolicy "PolicyCloudWatchMetrics" refSR
          (ResourcePattern.single "*") ["cloudwatch:PutMetricData"]
    let c : ClusterResourceSet := { c with rs := rs }
    let rs : resourceSet ClusterConfig :=
      c.rs.attachAllowPolicy "PolicyELBPermissions" refSR
          (ResourcePattern.single "*")
          ["ec2:DescribeAccountAttributes", "ec2:DescribeAddresses",
            "ec2:DescribeInternetGateways"]
    let c : ClusterResourceSet := { c with rs := rs }
    let rs : resourceSet ClusterConfig :=
      (c.rs.defineOutputFromAtt OutputName.ClusterServiceRoleARN "ServiceRole"
        "Arn" true ClusterResourceSet.collectServiceRoleARN).1
    { c with rs := rs }

/-! ## Node group -/

/-- The fields of `api.NodeGroupIAM` used by this file. -/
structure NodeGroupIAM where
  InstanceProfileARN : String := ""
  InstanceRoleARN : String := ""
  InstanceRoleName : String := ""
  other : OtherFields := []
  deriving DecidableEq, Repr

/-- The node-group specification `api.NodeGroup`. -/
structure NodeGroup where
  IAM : NodeGroupIAM := {}
  other : OtherFields := []
  deriving DecidableEq, Repr

/-- The provider held by a node-group resource set, as far as this file uses it: the
role-import collaborator, which given a profile identifier returns the ARN of the owning role
or an error. -/
structure Provider where
  roleOfProfile : String → Except Error String

/-- Modelled from the spec: `iam.ImportInstanceRoleFromProfileARN` is missing from the source.
It asks the role-import collaborator for the role that owns the profile; on an error it returns
that error and writes nothing, otherwise it writes the role ARN into the specification. -/
def iam.ImportInstanceRoleFromProfileARN (provider : Provider) (spec : NodeGroup)
    (profileARN : String) : NodeGroup × Option Error :=
  match provider.roleOfProfile profileARN with
  | Except.error e => (spec, some e)
  | Except.ok roleARN => ({ spec with IAM := { spec.IAM with InstanceRoleARN := roleARN } }, none)

/-- The shared role-creation routine, as a collaborator: it is given the graph and the two IAM
specifications and returns the graph with the role (and what is attached to it) declared, and
an error result. -/
abbrev RoleRoutine := Template → ClusterIAM → NodeGroupIAM → Bool → Template × Option Error

/-- Modelled from the spec: `createRole` is missing from the source.  It declares the node
role in the graph of the resource set, or fails; what it declares is decided by the routine
given as `routine`.  It writes to the graph only. -/
def createRole {σ : Type} (routine : RoleRoutine) (rs : resourceSet σ) (clusterIAM : ClusterIAM)
    (iamConfig : NodeGroupIAM) (managed : Bool) : resourceSet σ × Option Error :=
  let r := routine rs.template clusterIAM iamConfig managed
  ({ rs with template := r.1 }, r.2)

/-- The struct `NodeGroupResourceSet`, with the fields this file uses. -/
structure NodeGroupResourceSet where
  rs : resourceSet NodeGroup := {}
  clusterSpec : ClusterConfig := {}
  spec : NodeGroup := {}
  provider : Provider
  instanceProfileARN : Option Value := none

/-- The method `WithIAM` (lines 114-116). -/
def NodeGroupResourceSet.WithIAM (n : NodeGroupResourceSet) : Bool := n.rs.withIAM

/-- The method `WithNamedIAM` (lines 119-121). -/
def NodeGroupResourceSet.WithNamedIAM (n : NodeGroupResourceSet) : Bool := n.rs.withNamedIAM

/-- Modelled from the spec: `NodeGroupResourceSet.newResource` is missing from the source; it
declares the resource in the graph of the underlying resource set. -/
def NodeGroupResourceSet.newResource (n : NodeGroupResourceSet) (name : String)
    (resource : Resource) : NodeGroupResourceSet × Value × Option Error :=
  ({ n with rs := (n.rs.newResource name resource).1 },
    (n.rs.newResource name resource).2.1, (n.rs.newResource name resource).2.2)

/-- The collector of lines 137-139: the import of the instance role from the profile. -/
def NodeGroupResourceSet.collectImportedRole (provider : Provider) : Collector NodeGroup :=
  fun v spec => iam.ImportInstanceRoleFromProfileARN provider spec v

/-- The collector of lines 153-156 and 178-181: `n.spec.IAM.InstanceProfileARN = v`. -/
def NodeGroupResourceSet.collectInstanceProfileARN : Collector NodeGroup :=
  fun v spec => ({ spec with IAM := { spec.IAM with InstanceProfileARN := v } }, none)

/-- The collector of lines 182-185: `n.spec.IAM.InstanceRoleARN = v`. -/
def NodeGroupResourceSet.collectInstanceRoleARN : Collector NodeGroup :=
  fun v spec => ({ spec with IAM := { spec.IAM with InstanceRoleARN := v } }, none)

/-- The method `NodeGroupResourceSet.addResourcesForIAM` (lines 123-187).  The first argument is
the role-creation routine behind `createRole`.  The only error it returns is the one of
`createRole` (line 169); every other exit returns `nil`. -/
def NodeGroupResourceSet.addResourcesForIAM (routine : RoleRoutine) (n : NodeGroupResourceSet) :
    NodeGroupResourceSet × Option Error :=
  if n.spec.IAM.InstanceProfileARN ≠ "" then
    let n : NodeGroupResourceSet :=
      { n with rs := { n.rs with withIAM := false, withNamedIAM := false } }
    let n : NodeGroupResourceSet :=
      { n with instanceProfileARN := some (Value.str n.spec.IAM.InstanceProfileARN) }
    if n.spec.IAM.InstanceRoleARN ≠ "" then
      let rs : resourceSet NodeGroup :=
        (n.rs.defineOutputWithoutCollector OutputName.NodeGroupInstanceProfileARN
            (Value.str n.spec.IAM.InstanceProfileARN) true).1
      let n : NodeGroupResourceSet := { n with rs := rs }
      let rs : resourceSet NodeGroup :=
        (n.rs.defineOutputWithoutCollector OutputName.NodeGroupInstanceRoleARN
            (Value.str n.spec.IAM.InstanceRoleARN) true).1
      let n : NodeGroupResourceSet := { n with rs := rs }
      (n, none)
    else
      let rs : resourceSet NodeGroup :=
        (n.rs.defineOutput OutputName.NodeGroupInstanceProfileARN
            (Value.str n.spec.IAM.InstanceProfileARN) true
            (NodeGroupResourceSet.collectImportedRole n.provider)).1
      let n : NodeGroupResourceSet := { n with rs := rs }
      (n, none)
  else
    let n : NodeGroupResourceSet := { n with rs := { n.rs with withIAM := true } }
    if n.spec.IAM.InstanceRoleARN ≠ "" then
      let n : NodeGroupResourceSet :=
        (n.newResource cfnIAMInstanceProfileName (Resource.InstanceProfile {
          Path := Value.str "/"
          Roles := [Value.str n.spec.IAM.InstanceRoleARN] })).1
      let n : NodeGroupResourceSet :=
        { n with instanceProfileARN := some (Value.getAtt cfnIAMInstanceProfileName "Arn") }
      let rs : resourceSet NodeGroup :=
        (n.rs.defineOutputFromAtt OutputName.NodeGroupInstanceProfileARN
            cfnIAMInstanceProfileName "Arn" true
            NodeGroupResourceSet.collectInstanceProfileARN).1
      let n : NodeGroupResourceSet := { n with rs := rs }
      let rs : resourceSet NodeGroup :=
        (n.rs.defineOutputWithoutCollector OutputName.NodeGroupInstanceRoleARN
            (Value.str n.spec.IAM.InstanceRoleARN) true).1
      let n : NodeGroupResourceSet := { n with rs := rs }
      (n, none)
    else
      let n : NodeGroupResourceSet :=
        if n.spec.IAM.InstanceRoleName ≠ "" then
          { n with rs := { n.rs with withNamedIAM := true } }
        else n
      match createRole routine n.rs n.clusterSpec.IAM n.spec.IAM false with
      | (rs, some err) => ({ n with rs := rs }, some err)
      | (rs, none) =>
      let n : NodeGroupResourceSet := { n with rs := rs }
      let n : NodeGroupResourceSet :=
        (n.newResource cfnIAMInstanceProfileName (Resource.InstanceProfile {
          Path := Value.str "/"
          Roles := [Value.ref cfnIAMInstanceRoleName] })).1
      let n : NodeGroupResourceSet :=
        { n with instanceProfileARN := some (Value.getAtt cfnIAMInstanceProfileName "Arn") }
      let rs : resourceSet NodeGroup :=
        (n.rs.defineOutputFromAtt OutputName.NodeGroupInstanceProfileARN
            cfnIAMInstanceProfileName "Arn" true
            NodeGroupResourceSet.collectInstanceProfileARN).1
      let n : NodeGroupResourceSet := { n with rs := rs }
      let rs : resourceSet NodeGroup :=
        (n.rs.defineOutputFromAtt OutputName.NodeGroupInstanceRoleARN
            cfnIAMInstanceRoleName "Arn" true
            NodeGroupResourceSet.collectInstanceRoleARN).1
      let n : NodeGroupResourceSet := { n with rs := rs }
      (n, none)

/-! ## Service account -/

/-- The struct `api.ClusterIAMServiceAccountStatus`. -/
structure ClusterIAMServiceAccountStatus where
  RoleARN : Option String := none
  deriving DecidableEq, Repr

/-- An inline policy document, `map[string]interface{}`: its keys with their values, each
value kept as text. -/
abbrev InlineDocument := List (String × String)

/-- The fields of `api.ClusterIAMServiceAccount` used by this file. -/
structure ClusterIAMServiceAccount where
  Name : String := ""
  Namespace : String := ""
  AttachPolicyARNs : List String := []
  AttachPolicy : InlineDocument := []
  PermissionsBoundary : String := ""
  Status : Option ClusterIAMServiceAccountStatus := none
  other : OtherFields := []
  deriving DecidableEq, Repr

/-- The trust-document collaborator `iamoidc.OpenIDConnectManager`: given the namespace and the
service-account name it produces the trust policy document. -/
structure OpenIDConnectManager where
  MakeAssumeRolePolicyDocument : String → String → InlineDocument

namespace cft

/-- Values of package `cft`, as far as this file builds them. -/
inductive Value
  /-- The reference to a resource that `Template.NewResource` returns. -/
  | ref (name : String)
  /-- The value `cft.MakeFnGetAttString arg`; `arg` names a resource and its attribute,
  separated by a dot. -/
  | getAttString (arg : String)
  deriving DecidableEq, Repr

/-- The struct `cft.IAMRole`. -/
structure IAMRole where
  AssumeRolePolicyDocument : InlineDocument
  PermissionsBoundary : String := ""
  ManagedPolicyArns : List String := []
  deriving DecidableEq, Repr

/-- The policy resource that `Template.AttachPolicy` declares. -/
structure IAMPolicy where
  Roles : List Value
  PolicyDocument : InlineDocument
  deriving DecidableEq, Repr

/-- A resource of a `cft.Template`. -/
inductive Resource
  | IAMRole (r : IAMRole)
  | IAMPolicy (p : IAMPolicy)
  deriving DecidableEq, Repr

/-- The struct `cft.Output`. -/
structure Output where
  Value : Value
  deriving DecidableEq, Repr

/-- The description of a template.  The only one built here is the `fmt.Sprintf` of lines
214-218, from `rs.spec.NameString()` and `templateDescriptionSuffix`; neither is in the source,
so the description is kept as the specification it was built for. -/
inductive Description
  | empty
  | iamRoleForServiceAccount (spec : ClusterIAMServiceAccount)
  deriving DecidableEq, Repr

/-- The struct `cft.Template`. -/
structure Template where
  Description : Description := Description.empty
  Resources : Map String Resource := []
  Outputs : Map String Output := []
  deriving DecidableEq, Repr

/-- Modelled from the spec: `cft.NewTemplate` is missing from the source; it yields a graph
with no resource and no output. -/
def NewTemplate : Template := {}

/-- Modelled from the spec: `cft.Template.NewResource` is missing from the source.  It is the
`declare` of the resource graph: when the name is already declared it fails with
`DuplicateNameError` and leaves the graph unchanged, otherwise it adds the resource.  The Go
function returns a single value, the reference to the name.  The result here is the graph, that
value, and the failure, which no call site looks at. -/
def Template.NewResource (t : Template) (name : String) (resource : Resource) :
    Template × Value × Option Error :=
  if Map.contains t.Resources name then
    (t, Value.ref name, some (Error.DuplicateNameError name))
  else
    ({ t with Resources := Map.set t.Resources name resource }, Value.ref name, none)

/-- Modelled from the spec: `cft.Template.AttachPolicy` is missing from the source.  It declares
a policy resource under the given name, attached to the given role and holding the given
document.  The call site is a statement; the result here is the graph and the failure. -/
def Template.AttachPolicy (t : Template) (name : String) (refRole : Value)
    (policyDoc : InlineDocument) : Template × Option Error :=
  ((t.NewResource name
      (Resource.IAMPolicy { Roles := [refRole], PolicyDocument := policyDoc })).1,
    (t.NewResource name
      (Resource.IAMPolicy { Roles := [refRole], PolicyDocument := policyDoc })).2.2)

end cft

/-- The struct `IAMServiceAccountResourceSet` (lines 190-195).  The collector set is a pointer,
`nil` until `AddAllResources` sets it. -/
structure IAMServiceAccountResourceSet where
  template : cft.Template
  spec : ClusterIAMServiceAccount
  oidc : OpenIDConnectManager
  outputs : Option (CollectorSet ClusterIAMServiceAccount) := none

/-- The constructor `NewIAMServiceAccountResourceSet` (lines 198-204). -/
def NewIAMServiceAccountResourceSet (spec : ClusterIAMServiceAccount)
    (oidc : OpenIDConnectManager) : IAMServiceAccountResourceSet :=
  { template := cft.NewTemplate, spec := spec, oidc := oidc }

/-- The method `WithIAM` (line 207). -/
def IAMServiceAccountResourceSet.WithIAM (_rs : IAMServiceAccountResourceSet) : Bool := true

/-- The method `WithNamedIAM` (line 210). -/
def IAMServiceAccountResourceSet.WithNamedIAM (_rs : IAMServiceAccountResourceSet) : Bool :=
  false

/-- The collector of lines 237-242: the status is replaced by one that holds the role ARN. -/
def IAMServiceAccountResourceSet.collectRole1 : Collector ClusterIAMServiceAccount :=
  fun v spec => ({ spec with Status := some { RoleARN := some v } }, none)

/-- The method `IAMServiceAccountResourceSet.AddAllResources` (lines 213-250).  Its only
return is `return nil` (line 249). -/
def IAMServiceAccountResourceSet.AddAllResources (rs : IAMServiceAccountResourceSet) :
    IAMServiceAccountResourceSet × Option Error :=
  let rs : IAMServiceAccountResourceSet :=
    { rs with template := { rs.template with
        Description := cft.Description.iamRoleForServiceAccount rs.spec } }
  let role : cft.IAMRole := {
    AssumeRolePolicyDocument := rs.oidc.MakeAssumeRolePolicyDocument rs.spec.Namespace rs.spec.Name
    PermissionsBoundary := rs.spec.PermissionsBoundary }
  let role : cft.IAMRole :=
    { role with ManagedPolicyArns := role.ManagedPolicyArns ++ rs.spec.AttachPolicyARNs }
  let roleRef : cft.Value := (rs.template.NewResource "Role1" (cft.Resource.IAMRole role)).2.1
  let template : cft.Template :=
    (rs.template.NewResource "Role1" (cft.Resource.IAMRole role)).1
  let rs : IAMServiceAccountResourceSet := { rs with template := template }
  let rs : IAMServiceAccountResourceSet :=
    { rs with template := { rs.template with
        Outputs := Map.set rs.template.Outputs "Role1"
          { Value := cft.Value.getAttString "Role1.Arn" } } }
  let collectors : CollectorSet ClusterIAMServiceAccount :=
    [(OutputName.literal "Role1", IAMServiceAccountResourceSet.collectRole1)]
  let rs : IAMServiceAccountResourceSet := { rs with outputs := some collectors }
  let rs : IAMServiceAccountResourceSet :=
    if rs.spec.AttachPolicy.length ≠ 0 then
      let template : cft.Template :=
        (rs.template.AttachPolicy "Policy1" roleRef rs.spec.AttachPolicy).1
      { rs with template := template }
    else rs
  (rs, none)

/-! ## Expected states -/

/-- The role `ServiceRole` that the cluster planner builds on lines 74-92. -/
def ClusterResourceSet.serviceRole (spec : ClusterConfig) : Role :=
  { AssumeRolePolicyDocument := PolicyDocument.assumeRoleForServices
      [MakeServiceRef "EKS", MakeServiceRef "EKSFargatePods"]
    ManagedPolicyArns := makePolicyARNs
      (if !api.IsDisabled spec.IAM.VPCResourceControllerPolicy then
        [iamPolicyAmazonEKSClusterPolicy] ++ [iamPolicyAmazonEKSVPCResourceController]
      else [iamPolicyAmazonEKSClusterPolicy])
    PermissionsBoundary :=
      if api.IsSetAndNonEmptyString spec.IAM.ServiceRolePermissionsBoundary then
        some (Value.str (spec.IAM.ServiceRolePermissionsBoundary.getD ""))
      else none }

/-- The resources the cluster planner declares when no service role is supplied, in the order
of their declaration (lines 93-105). -/
def ClusterResourceSet.createdResources (spec : ClusterConfig) : List (String × Resource) :=
  [("ServiceRole", Resource.Role (ClusterResourceSet.serviceRole spec)),
    ("PolicyCloudWatchMetrics", Resource.Policy {
      PolicyName := makeName "PolicyCloudWatchMetrics"
      Roles := [Value.ref "ServiceRole"]
      PolicyDocument := PolicyDocument.statements
        [{ Effect := "Allow", Resource := ResourcePattern.single "*",
            Action := ["cloudwatch:PutMetricData"] }] }),
    ("PolicyELBPermissions", Resource.Policy {
      PolicyName := makeName "PolicyELBPermissions"
      Roles := [Value.ref "ServiceRole"]
      PolicyDocument := PolicyDocument.statements
        [{ Effect := "Allow", Resource := ResourcePattern.single "*",
            Action := ["ec2:DescribeAccountAttributes", "ec2:DescribeAddresses",
              "ec2:DescribeInternetGateways"] }] })]

/-! ## References between resources -/

/-- The resources of the graph that a value refers to: the target of a reference, and the
resource whose attribute is taken. -/
def Value.refs : Value → List String
  | Value.ref name => [name]
  | Value.getAtt name _ => [name]
  | _ => []

/-- The resources of the graph that a list of values refers to. -/
def Value.refsOfList : List Value → List String
  | [] => []
  | v :: vs => v.refs ++ Value.refsOfList vs

/-- The resources of the graph that a policy document refers to. -/
def PolicyDocument.refs : PolicyDocument → List String
  | PolicyDocument.statements _ => []
  | PolicyDocument.assumeRoleForServices services => Value.refsOfList services

/-- The resources of the graph that the properties of a resource refer to. -/
def Resource.refs : Resource → List String
  | Resource.Role r =>
    r.AssumeRolePolicyDocument.refs ++ Value.refsOfList r.ManagedPolicyArns ++
      (match r.PermissionsBoundary with
        | some v => v.refs
        | none => [])
  | Resource.Policy p =>
    p.PolicyName.refs ++ Value.refsOfList p.Roles ++ p.PolicyDocument.refs
  | Resource.InstanceProfile p => p.Path.refs ++ Value.refsOfList p.Roles

/-- Reference integrity of a graph: every resource named in a property of a declared resource,
and every resource an output takes an attribute of, is declared in the graph. -/
def Template.referencesResolve (t : Template) : Bool :=
  t.Resources.all (fun e => e.2.refs.all (fun x => Map.contains t.Resources x)) &&
  t.Outputs.all (fun e => e.2.Value.refs.all (fun x => Map.contains t.Resources x))

namespace cft

/-- The resource named by the argument of `MakeFnGetAttString`: the part before the first
dot. -/
def resourceNameOf (arg : String) : String :=
  String.mk (arg.data.takeWhile (fun ch => ch != '.'))

/-- The resources of the graph that a value refers to. -/
def Value.refs : Value → List String
  | Value.ref name => [name]
  | Value.getAttString arg => [resourceNameOf arg]

/-- The resources of the graph that a list of values refers to. -/
def Value.refsOfList : List Value → List String
  | [] => []
  | v :: vs => v.refs ++ Value.refsOfList vs

/-- The resources of the graph that the properties of a resource refer to. -/
def Resource.refs : Resource → List String
  | Resource.IAMRole _ => []
  | Resource.IAMPolicy p => Value.refsOfList p.Roles

/-- Reference integrity of a graph: every resource named in a property of a declared resource,
and every resource an output takes an attribute of, is declared in the graph. -/
def Template.referencesResolve (t : Template) : Bool :=
  t.Resources.all (fun e => e.2.refs.all (fun x => Map.contains t.Resources x)) &&
  t.Outputs.all (fun e => e.2.Value.refs.all (fun x => Map.contains t.Resources x))

end cft

/-! ## Concrete inputs -/

/-- A role-import collaborator that knows no profile. -/
def failingProvider : Provider :=
  { roleOfProfile := fun _ => Except.error (Error.RoleImportError "no role for this profile") }

/-- A role-creation routine that declares `NodeInstanceRole` with the default node policies. -/
def sampleRoutine : RoleRoutine := fun t _ _ _ =>
  ({ t with Resources := Map.set t.Resources cfnIAMInstanceRoleName (Resource.Role {
        AssumeRolePolicyDocument := PolicyDocument.assumeRoleForServices [MakeServiceRef "EC2"]
        ManagedPolicyArns := makePolicyARNs iamDefaultNodePolicies }) }, none)

/-- A node-group resource set on an empty graph, for a specification with the given profile
ARN, role ARN and role name. -/
def sampleNodeGroup (profileARN roleARN roleName : String) : NodeGroupResourceSet :=
  { provider := failingProvider
    spec := { IAM := {
      InstanceProfileARN := profileARN, InstanceRoleARN := roleARN, InstanceRoleName := roleName } } }

/-- A cluster resource set on an empty graph, for a specification with the given service role
ARN and controller-policy flag. -/
def sampleCluster (serviceRoleARN : Option String) (vpcPolicy : Option Bool) :
    ClusterResourceSet :=
  { spec := { IAM := { ServiceRoleARN := serviceRoleARN, VPCResourceControllerPolicy := vpcPolicy } } }

/-- A role-creation routine that fails and declares nothing. -/
def failingRoutine : RoleRoutine := fun t _ _ _ =>
  (t, some (Error.other "cannot create the node role"))

/-- A role-creation routine that succeeds and declares both `NodeInstanceRole` and, ahead of
the planner, `NodeInstanceProfile`. -/
def crowdingRoutine : RoleRoutine := fun t clusterIAM iamConfig managed =>
  ({ (sampleRoutine t clusterIAM iamConfig managed).1 with
      Resources := Map.set (sampleRoutine t clusterIAM iamConfig managed).1.Resources
        cfnIAMInstanceProfileName
        (Resource.InstanceProfile { Path := Value.str "/", Roles := [] }) }, none)

/-- A node-group resource set after a first planning run for the external role `arn:role:1`:
`NodeInstanceProfile` is declared in its graph. -/
def samplePlannedNodeGroup : NodeGroupResourceSet :=
  (NodeGroupResourceSet.addResourcesForIAM sampleRoutine (sampleNodeGroup "" "arn:role:1" "")).1

/-- A node-group resource set whose named-IAM flag is already true, for a specification with
the external role `arn:role:1` and no profile. -/
def sampleNamedNodeGroup : NodeGroupResourceSet :=
  { provider := failingProvider
    rs := { withNamedIAM := true }
    spec := { IAM := { InstanceRoleARN := "arn:role:1" } } }

end Builder

namespace Builder

/-! ## Lemmas on maps -/

theorem Map.get?_set_self {κ α : Type} [DecidableEq κ] (m : Map κ α) (k : κ) (v : α) :
    Map.get? (Map.set m k v) k = some v := by
  induction m with
  | nil => simp [Map.set, Map.get?]
  | cons e m ih =>
    obtain ⟨k', v'⟩ := e
    by_cases h : k' = k
    · simp [Map.set, Map.get?, h]
    · simp [Map.set, Map.get?, h, ih]

theorem Map.get?_set_of_ne {κ α : Type} [DecidableEq κ] (m : Map κ α) (k k' : κ) (v : α)
    (hne : k ≠ k') : Map.get? (Map.set m k v) k' = Map.get? m k' := by
  induction m with
  | nil => simp [Map.set, Map.get?, hne]
  | cons e m ih =>
    obtain ⟨k₁, v₁⟩ := e
    by_cases h : k₁ = k
    · subst h
      simp [Map.set, Map.get?, hne]
    · by_cases h' : k₁ = k'
      · subst h'
        simp [Map.set, Map.get?, h]
      · simp [Map.set, Map.get?, h, h', ih]

theorem Map.set_of_get?_none {κ α : Type} [DecidableEq κ] (m : Map κ α) (k : κ) (v : α)
    (hnone : Map.get? m k = none) : Map.set m k v = m ++ [(k, v)] := by
  induction m with
  | nil => simp [Map.set]
  | cons e m ih =>
    obtain ⟨k', v'⟩ := e
    by_cases h : k' = k
    · simp [Map.get?, h] at hnone
    · simp only [Map.get?, h, if_false] at hnone
      simp [Map.set, h, ih hnone]

theorem Map.get?_append_single_of_ne {κ α : Type} [DecidableEq κ] (m : Map κ α) (k k' : κ)
    (v : α) (hne : k ≠ k') : Map.get? (m ++ [(k, v)]) k' = Map.get? m k' := by
  induction m with
  | nil => simp [Map.get?, hne]
  | cons e m ih =>
    obtain ⟨k₁, v₁⟩ := e
    by_cases h : k₁ = k'
    · simp [Map.get?, h]
    · simpa [Map.get?, h] using ih

theorem Map.contains_eq_false {κ α : Type} [DecidableEq κ] (m : Map κ α) (k : κ) :
    Map.contains m k = false ↔ Map.get? m k = none := by
  simp [Map.contains]

theorem Map.contains_append_single_self {κ α : Type} [DecidableEq κ] (m : Map κ α) (k : κ)
    (v : α) : Map.contains (m ++ [(k, v)]) k = true := by
  induction m with
  | nil => simp [Map.contains, Map.get?]
  | cons e m ih =>
    obtain ⟨k₁, v₁⟩ := e
    by_cases h : k₁ = k
    · simp [Map.contains, Map.get?, h]
    · simpa [Map.contains, Map.get?, h] using ih

theorem Map.contains_append_of_contains {κ α : Type} [DecidableEq κ] (m m' : Map κ α) (k : κ)
    (h : Map.contains m k = true) : Map.contains (m ++ m') k = true := by
  induction m with
  | nil => simp [Map.contains, Map.get?] at h
  | cons e m ih =>
    obtain ⟨k₁, v₁⟩ := e
    by_cases hk : k₁ = k
    · simp [Map.contains, Map.get?, hk]
    · simp only [Map.contains, Map.get?, hk, if_false, List.cons_append] at h ⊢
      exact ih h

theorem Map.get?_append_of_none {κ α : Type} [DecidableEq κ] (m m' : Map κ α) (k : κ)
    (h : Map.get? m k = none) : Map.get? (m ++ m') k = Map.get? m' k := by
  induction m with
  | nil => rfl
  | cons e m ih =>
    obtain ⟨k₁, v₁⟩ := e
    by_cases hk : k₁ = k
    · simp [Map.get?, hk] at h
    · simp only [Map.get?, hk, if_false, List.cons_append] at h ⊢
      exact ih h

theorem Map.contains_set_self {κ α : Type} [DecidableEq κ] (m : Map κ α) (k : κ) (v : α) :
    Map.contains (Map.set m k v) k = true := by
  simp [Map.contains, Map.get?_set_self]

theorem Map.contains_set_of_contains {κ α : Type} [DecidableEq κ] (m : Map κ α) (k k' : κ)
    (v : α) (h : Map.contains m k' = true) : Map.contains (Map.set m k v) k' = true := by
  by_cases hk : k = k'
  · subst hk
    exact Map.contains_set_self m k v
  · simpa [Map.contains, Map.get?_set_of_ne m k k' v hk] using h

/-! ## Lemmas on the helpers of the resource set -/

theorem resourceSet.newResource_of_fresh {σ : Type} (r : resourceSet σ) (name : String)
    (resource : Resource) (h : Map.get? r.template.Resources name = none) :
    r.newResource name resource =
      ({ r with template := { r.template with
          Resources := r.template.Resources ++ [(name, resource)] } }, Value.ref name, none) := by
  unfold resourceSet.newResource
  simp [Map.contains, h, Map.set_of_get?_none _ _ _ h]

theorem resourceSet.newResource_of_used {σ : Type} (r : resourceSet σ) (name : String)
    (resource : Resource) (h : Map.contains r.template.Resources name = true) :
    r.newResource name resource = (r, Value.ref name, some (Error.DuplicateNameError name)) := by
  unfold resourceSet.newResource
  simp [h]

theorem resourceSet.defineOutput_of_fresh {σ : Type} (r : resourceSet σ) (name : OutputName)
    (value : Value) (export_ : Bool) (fn : Collector σ)
    (h : Map.get? r.template.Outputs name = none) :
    r.defineOutput name value export_ fn = ({ r with
      template := { r.template with
        Outputs := r.template.Outputs ++ [(name, { Value := value, Export := export_ })] }
      outputs := Map.set r.outputs name fn }, none) := by
  unfold resourceSet.defineOutput
  simp [Map.contains, h, Map.set_of_get?_none _ _ _ h]

theorem resourceSet.defineOutput_of_used {σ : Type} (r : resourceSet σ) (name : OutputName)
    (value : Value) (export_ : Bool) (fn : Collector σ)
    (h : Map.contains r.template.Outputs name = true) :
    r.defineOutput name value export_ fn =
      ({ r with outputs := Map.set r.outputs name fn },
        some (Error.DuplicateOutputError name)) := by
  unfold resourceSet.defineOutput
  simp [h]

/-- What a declaration leaves as it was: the bindings, the flags and the outputs of the graph;
the value it returns is the reference to the name. -/
theorem resourceSet.newResource_frame {σ : Type} (r : resourceSet σ) (name : String)
    (resource : Resource) :
    (r.newResource name resource).1.outputs = r.outputs ∧
    (r.newResource name resource).1.withIAM = r.withIAM ∧
    (r.newResource name resource).1.withNamedIAM = r.withNamedIAM ∧
    (r.newResource name resource).1.template.Outputs = r.template.Outputs ∧
    (r.newResource name resource).2.1 = Value.ref name := by
  unfold resourceSet.newResource
  split_ifs <;> exact ⟨rfl, rfl, rfl, rfl, rfl⟩

/-- What the binding of an output leaves as it was: the flags and the resources of the graph;
the write-back is recorded in every case. -/
theorem resourceSet.defineOutput_frame {σ : Type} (r : resourceSet σ) (name : OutputName)
    (value : Value) (export_ : Bool) (fn : Collector σ) :
    (r.defineOutput name value export_ fn).1.outputs = Map.set r.outputs name fn ∧
    (r.defineOutput name value export_ fn).1.withIAM = r.withIAM ∧
    (r.defineOutput name value export_ fn).1.withNamedIAM = r.withNamedIAM ∧
    (r.defineOutput name value export_ fn).1.template.Resources = r.template.Resources := by
  by_cases hc : Map.contains r.template.Outputs name = true <;>
  simp [resourceSet.defineOutput, hc]

/-- A declaration under another name leaves the lookup of a name as it was. -/
theorem resourceSet.newResource_get?_of_ne {σ : Type} (r : resourceSet σ)
    (name : String) (resource : Resource) (k : String) (hne : name ≠ k) :
    Map.get? (r.newResource name resource).1.template.Resources k
      = Map.get? r.template.Resources k := by
  unfold resourceSet.newResource
  split_ifs
  · rfl
  · exact Map.get?_set_of_ne _ _ _ _ hne

/-- After a declaration, accepted or refused, the name is declared; names declared before stay
declared. -/
theorem resourceSet.newResource_declares {σ : Type} (r : resourceSet σ)
    (name : String) (resource : Resource) :
    Map.contains (r.newResource name resource).1.template.Resources name = true ∧
    ∀ k, Map.contains r.template.Resources k = true →
      Map.contains (r.newResource name resource).1.template.Resources k = true := by
  unfold resourceSet.newResource
  split_ifs with hc
  · exact ⟨hc, fun _ h => h⟩
  · exact ⟨Map.contains_set_self _ _ _, fun k h => Map.contains_set_of_contains _ _ _ _ h⟩

/-! ## Lemmas on the helpers: single projections -/

theorem resourceSet.newResource_outputs {σ : Type} (r : resourceSet σ) (name : String)
    (resource : Resource) : (r.newResource name resource).1.outputs = r.outputs :=
  (resourceSet.newResource_frame r name resource).1

theorem resourceSet.newResource_withIAM {σ : Type} (r : resourceSet σ) (name : String)
    (resource : Resource) : (r.newResource name resource).1.withIAM = r.withIAM :=
  (resourceSet.newResource_frame r name resource).2.1

theorem resourceSet.newResource_withNamedIAM {σ : Type} (r : resourceSet σ) (name : String)
    (resource : Resource) : (r.newResource name resource).1.withNamedIAM = r.withNamedIAM :=
  (resourceSet.newResource_frame r name resource).2.2.1

theorem resourceSet.newResource_Outputs {σ : Type} (r : resourceSet σ) (name : String)
    (resource : Resource) :
    (r.newResource name resource).1.template.Outputs = r.template.Outputs :=
  (resourceSet.newResource_frame r name resource).2.2.2.1

theorem resourceSet.newResource_ref {σ : Type} (r : resourceSet σ) (name : String)
    (resource : Resource) : (r.newResource name resource).2.1 = Value.ref name :=
  (resourceSet.newResource_frame r name resource).2.2.2.2

theorem resourceSet.defineOutput_outputs {σ : Type} (r : resourceSet σ) (name : OutputName)
    (value : Value) (export_ : Bool) (fn : Collector σ) :
    (r.defineOutput name value export_ fn).1.outputs = Map.set r.outputs name fn :=
  (resourceSet.defineOutput_frame r name value export_ fn).1

theorem resourceSet.defineOutput_withIAM {σ : Type} (r : resourceSet σ) (name : OutputName)
    (value : Value) (export_ : Bool) (fn : Collector σ) :
    (r.defineOutput name value export_ fn).1.withIAM = r.withIAM :=
  (resourceSet.defineOutput_frame r name value export_ fn).2.1

theorem resourceSet.defineOutput_withNamedIAM {σ : Type} (r : resourceSet σ)
    (name : OutputName) (value : Value) (export_ : Bool) (fn : Collector σ) :
    (r.defineOutput name value export_ fn).1.withNamedIAM = r.withNamedIAM :=
  (resourceSet.defineOutput_frame r name value export_ fn).2.2.1

theorem resourceSet.defineOutput_Resources {σ : Type} (r : resourceSet σ) (name : OutputName)
    (value : Value) (export_ : Bool) (fn : Collector σ) :
    (r.defineOutput name value export_ fn).1.template.Resources = r.template.Resources :=
  (resourceSet.defineOutput_frame r name value export_ fn).2.2.2

/-- The flags after node planning, as a function of the specification and of the flag before. -/
theorem NodeGroupResourceSet.addResourcesForIAM_flags (routine : RoleRoutine)
    (n : NodeGroupResourceSet) :
    (NodeGroupResourceSet.addResourcesForIAM routine n).1.rs.withIAM
      = decide (n.spec.IAM.InstanceProfileARN = "") ∧
    (NodeGroupResourceSet.addResourcesForIAM routine n).1.rs.withNamedIAM
      = (if n.spec.IAM.InstanceProfileARN ≠ "" then false
         else if n.spec.IAM.InstanceRoleARN ≠ "" then n.rs.withNamedIAM
         else if n.spec.IAM.InstanceRoleName ≠ "" then true
         else n.rs.withNamedIAM) := by
  unfold NodeGroupResourceSet.addResourcesForIAM
  by_cases hP : n.spec.IAM.InstanceProfileARN = "" <;>
  by_cases hR : n.spec.IAM.InstanceRoleARN = "" <;>
  by_cases hN : n.spec.IAM.InstanceRoleName = "" <;>
  cases hr : (routine n.rs.template n.clusterSpec.IAM n.spec.IAM false).2 <;>
  simp [hP, hR, hN, hr, createRole, NodeGroupResourceSet.newResource,
    resourceSet.defineOutputWithoutCollector, resourceSet.defineOutputFromAtt,
    resourceSet.newResource_withIAM, resourceSet.newResource_withNamedIAM,
    resourceSet.defineOutput_withIAM, resourceSet.defineOutput_withNamedIAM]

/-! ## Node group: the flag pair -/

/-- C1: for a node-group specification planned on a resource set whose named-IAM flag starts
false, after `addResourcesForIAM` the flag `withIAM` holds exactly when `InstanceProfileARN` is
empty, and `withNamedIAM` holds exactly when `InstanceProfileARN` and `InstanceRoleARN` are empty
and `InstanceRoleName` is not.  In particular an external profile gives (false, false) and the
fully-managed state with a fixed role name gives (true, true).  This holds whatever the
role-creation routine does and whether or not planning succeeds. -/
theorem node_flag_pair (routine : RoleRoutine) (n : NodeGroupResourceSet)
    (hNamed : n.rs.withNamedIAM = false) :
    ((NodeGroupResourceSet.addResourcesForIAM routine n).1.WithIAM
        = decide (n.spec.IAM.InstanceProfileARN = "")) ∧
    ((NodeGroupResourceSet.addResourcesForIAM routine n).1.WithNamedIAM
        = decide (n.spec.IAM.InstanceProfileARN = "" ∧ n.spec.IAM.InstanceRoleARN = "" ∧
            n.spec.IAM.InstanceRoleName ≠ "")) ∧
    (n.spec.IAM.InstanceProfileARN ≠ "" →
      (NodeGroupResourceSet.addResourcesForIAM routine n).1.WithIAM = false ∧
      (NodeGroupResourceSet.addResourcesForIAM routine n).1.WithNamedIAM = false) ∧
    (n.spec.IAM.InstanceProfileARN = "" → n.spec.IAM.InstanceRoleARN = "" →
      n.spec.IAM.InstanceRoleName ≠ "" →
      (NodeGroupResourceSet.addResourcesForIAM routine n).1.WithIAM = true ∧
      (NodeGroupResourceSet.addResourcesForIAM routine n).1.WithNamedIAM = true) := by
  obtain ⟨h1, h2⟩ := NodeGroupResourceSet.addResourcesForIAM_flags routine n
  simp only [NodeGroupResourceSet.WithIAM, NodeGroupResourceSet.WithNamedIAM, h1, h2, hNamed]
  by_cases hP : n.spec.IAM.InstanceProfileARN = "" <;>
  by_cases hR : n.spec.IAM.InstanceRoleARN = "" <;>
  by_cases hN : n.spec.IAM.InstanceRoleName = "" <;>
  simp [hP, hR, hN]

/-- Witness of C1 on an empty graph, in the fully-managed state with a fixed role name. -/
theorem node_flag_pair_witness :
    (sampleNodeGroup "" "" "eks-nodes").rs.withNamedIAM = false ∧
    (NodeGroupResourceSet.addResourcesForIAM sampleRoutine
        (sampleNodeGroup "" "" "eks-nodes")).1.WithIAM = true ∧
    (NodeGroupResourceSet.addResourcesForIAM sampleRoutine
        (sampleNodeGroup "" "" "eks-nodes")).1.WithNamedIAM = true :=
  ⟨rfl, (node_flag_pair sampleRoutine (sampleNodeGroup "" "" "eks-nodes") rfl).2.2.2
    rfl rfl (by decide)⟩

/-! ## Node group: external profile -/

/-- The result of node planning when a profile is supplied and no role is, on a graph where the
profile-ARN output is not bound yet. -/
theorem NodeGroupResourceSet.addResourcesForIAM_profile_only (routine : RoleRoutine)
    (n : NodeGroupResourceSet)
    (hP : n.spec.IAM.InstanceProfileARN ≠ "") (hR : n.spec.IAM.InstanceRoleARN = "")
    (hfresh : Map.get? n.rs.template.Outputs OutputName.NodeGroupInstanceProfileARN = none) :
    NodeGroupResourceSet.addResourcesForIAM routine n =
      ({ n with
          rs := {
            template := { n.rs.template with
              Outputs := n.rs.template.Outputs ++
                [(OutputName.NodeGroupInstanceProfileARN,
                  { Value := Value.str n.spec.IAM.InstanceProfileARN, Export := true })] }
            outputs := Map.set n.rs.outputs OutputName.NodeGroupInstanceProfileARN
              (NodeGroupResourceSet.collectImportedRole n.provider)
            withIAM := false
            withNamedIAM := false }
          instanceProfileARN := some (Value.str n.spec.IAM.InstanceProfileARN) }, none) := by
  unfold NodeGroupResourceSet.addResourcesForIAM
  simp [hP, hR, resourceSet.defineOutput_of_fresh, hfresh]

/-- C2, as stated, fails: for the profile `arn:profile:1` and no role, on an empty graph,
planning registers one output and one binding, not two; the only output is the profile-ARN
output, and no role-ARN output exists. -/
theorem node_profile_only_two_outputs_counterexample :
    (NodeGroupResourceSet.addResourcesForIAM sampleRoutine
        (sampleNodeGroup "arn:profile:1" "" "")).1.rs.template.Outputs
      = [(OutputName.NodeGroupInstanceProfileARN,
          { Value := Value.str "arn:profile:1", Export := true })] ∧
    (NodeGroupResourceSet.addResourcesForIAM sampleRoutine
        (sampleNodeGroup "arn:profile:1" "" "")).1.rs.outputs.length = 1 ∧
    ¬ ((NodeGroupResourceSet.addResourcesForIAM sampleRoutine
        (sampleNodeGroup "arn:profile:1" "" "")).1.rs.template.Outputs.length = 2) ∧
    ¬ ((NodeGroupResourceSet.addResourcesForIAM sampleRoutine
        (sampleNodeGroup "arn:profile:1" "" "")).1.rs.outputs.length = 2) := by
  decide

/-- C2, amended: for a node-group specification with a non-empty profile identifier and an empty
role identifier, planned on a graph where the profile-ARN output is not bound yet,
`addResourcesForIAM` returns no error and registers exactly one output binding: the profile-ARN
output, exported, whose value is the supplied profile identifier and whose write-back performs
the role-import lookup.  No other output and no other binding is added. -/
theorem node_profile_only_one_output (routine : RoleRoutine) (n : NodeGroupResourceSet)
    (hP : n.spec.IAM.InstanceProfileARN ≠ "") (hR : n.spec.IAM.InstanceRoleARN = "")
    (hfresh : Map.get? n.rs.template.Outputs OutputName.NodeGroupInstanceProfileARN = none) :
    (NodeGroupResourceSet.addResourcesForIAM routine n).2 = none ∧
    (NodeGroupResourceSet.addResourcesForIAM routine n).1.rs.template.Outputs
      = n.rs.template.Outputs ++
          [(OutputName.NodeGroupInstanceProfileARN,
            { Value := Value.str n.spec.IAM.InstanceProfileARN, Export := true })] ∧
    (NodeGroupResourceSet.addResourcesForIAM routine n).1.rs.outputs
      = Map.set n.rs.outputs OutputName.NodeGroupInstanceProfileARN
          (fun v spec => iam.ImportInstanceRoleFromProfileARN n.provider spec v) ∧
    Map.get? (NodeGroupResourceSet.addResourcesForIAM routine n).1.rs.outputs
        OutputName.NodeGroupInstanceProfileARN
      = some (fun v spec => iam.ImportInstanceRoleFromProfileARN n.provider spec v) ∧
    (∀ k, k ≠ OutputName.NodeGroupInstanceProfileARN →
      Map.get? (NodeGroupResourceSet.addResourcesForIAM routine n).1.rs.outputs k
        = Map.get? n.rs.outputs k) := by
  rw [NodeGroupResourceSet.addResourcesForIAM_profile_only routine n hP hR hfresh]
  refine ⟨rfl, rfl, rfl, ?_, ?_⟩
  · exact Map.get?_set_self _ _ _
  · intro k hk
    exact Map.get?_set_of_ne _ _ _ _ (Ne.symm hk)

/-- Witness of the amended C2 on an empty graph, for the profile `arn:profile:1`. -/
theorem node_profile_only_one_output_witness :
    (sampleNodeGroup "arn:profile:1" "" "").spec.IAM.InstanceProfileARN ≠ "" ∧
    (sampleNodeGroup "arn:profile:1" "" "").spec.IAM.InstanceRoleARN = "" ∧
    Map.get? (sampleNodeGroup "arn:profile:1" "" "").rs.template.Outputs
      OutputName.NodeGroupInstanceProfileARN = none ∧
    (NodeGroupResourceSet.addResourcesForIAM sampleRoutine
        (sampleNodeGroup "arn:profile:1" "" "")).1.rs.template.Outputs
      = [] ++ [(OutputName.NodeGroupInstanceProfileARN,
          { Value := Value.str "arn:profile:1", Export := true })] :=
  ⟨by decide, rfl, rfl,
    (node_profile_only_one_output sampleRoutine (sampleNodeGroup "arn:profile:1" "" "")
      (by decide) rfl rfl).2.1⟩

/-! ## Node group: the fully-managed state -/

/-- In the fully-managed state the error that planning returns is the one of the role-creation
routine. -/
theorem NodeGroupResourceSet.addResourcesForIAM_managed_error (routine : RoleRoutine)
    (n : NodeGroupResourceSet)
    (hP : n.spec.IAM.InstanceProfileARN = "") (hR : n.spec.IAM.InstanceRoleARN = "") :
    (NodeGroupResourceSet.addResourcesForIAM routine n).2
      = (routine n.rs.template n.clusterSpec.IAM n.spec.IAM false).2 := by
  unfold NodeGroupResourceSet.addResourcesForIAM
  by_cases hN : n.spec.IAM.InstanceRoleName = "" <;>
  cases hr : (routine n.rs.template n.clusterSpec.IAM n.spec.IAM false).2 <;>
  simp [hP, hR, hN, hr, createRole]

/-- In the fully-managed state, a planning run that returns no error has recorded the two
write-backs of lines 178-185. -/
theorem NodeGroupResourceSet.addResourcesForIAM_managed_collectors (routine : RoleRoutine)
    (n : NodeGroupResourceSet)
    (hP : n.spec.IAM.InstanceProfileARN = "") (hR : n.spec.IAM.InstanceRoleARN = "")
    (hok : (NodeGroupResourceSet.addResourcesForIAM routine n).2 = none) :
    (NodeGroupResourceSet.addResourcesForIAM routine n).1.rs.outputs
      = Map.set (Map.set n.rs.outputs OutputName.NodeGroupInstanceProfileARN
          NodeGroupResourceSet.collectInstanceProfileARN)
          OutputName.NodeGroupInstanceRoleARN NodeGroupResourceSet.collectInstanceRoleARN := by
  have hr : (routine n.rs.template n.clusterSpec.IAM n.spec.IAM false).2 = none := by
    rw [← NodeGroupResourceSet.addResourcesForIAM_managed_error routine n hP hR]
    exact hok
  unfold NodeGroupResourceSet.addResourcesForIAM
  by_cases hN : n.spec.IAM.InstanceRoleName = "" <;>
  simp [hP, hR, hN, hr, createRole, NodeGroupResourceSet.newResource,
    resourceSet.defineOutputFromAtt, resourceSet.newResource_outputs,
    resourceSet.defineOutput_outputs]

/-- C3: round trip in the fully-managed state.  For a node-group specification with empty
`InstanceProfileARN` and `InstanceRoleARN` for which planning returns no error, the profile-ARN
output and the role-ARN output each have a write-back bound; invoking the first with `P` and the
second with `R`, in either order and on any state of the specification, returns no error and
leaves the specification with `InstanceProfileARN = P`, `InstanceRoleARN = R` and every other
field as it was. -/
theorem node_managed_roundtrip (routine : RoleRoutine) (n : NodeGroupResourceSet)
    (hP : n.spec.IAM.InstanceProfileARN = "") (hR : n.spec.IAM.InstanceRoleARN = "")
    (hok : (NodeGroupResourceSet.addResourcesForIAM routine n).2 = none)
    (P R : String) (spec : NodeGroup) :
    ∃ fP fR : Collector NodeGroup,
      Map.get? (NodeGroupResourceSet.addResourcesForIAM routine n).1.rs.outputs
        OutputName.NodeGroupInstanceProfileARN = some fP ∧
      Map.get? (NodeGroupResourceSet.addResourcesForIAM routine n).1.rs.outputs
        OutputName.NodeGroupInstanceRoleARN = some fR ∧
      (fP P spec).2 = none ∧ (fR R (fP P spec).1).2 = none ∧
      (fR R (fP P spec).1).1
        = { spec with IAM := { spec.IAM with InstanceProfileARN := P, InstanceRoleARN := R } } ∧
      (fR R spec).2 = none ∧ (fP P (fR R spec).1).2 = none ∧
      (fP P (fR R spec).1).1
        = { spec with IAM := { spec.IAM with InstanceProfileARN := P, InstanceRoleARN := R } } := by
  rw [NodeGroupResourceSet.addResourcesForIAM_managed_collectors routine n hP hR hok]
  refine ⟨NodeGroupResourceSet.collectInstanceProfileARN,
    NodeGroupResourceSet.collectInstanceRoleARN, ?_, ?_, rfl, rfl, rfl, rfl, rfl, rfl⟩
  · rw [Map.get?_set_of_ne _ _ _ _ (by decide), Map.get?_set_self]
  · exact Map.get?_set_self _ _ _

/-- Witness of C3 on an empty graph, with a routine that declares `NodeInstanceRole`. -/
theorem node_managed_roundtrip_witness :
    (sampleNodeGroup "" "" "").spec.IAM.InstanceProfileARN = "" ∧
    (sampleNodeGroup "" "" "").spec.IAM.InstanceRoleARN = "" ∧
    (NodeGroupResourceSet.addResourcesForIAM sampleRoutine (sampleNodeGroup "" "" "")).2 = none ∧
    ∃ fP fR : Collector NodeGroup,
      Map.get? (NodeGroupResourceSet.addResourcesForIAM sampleRoutine
        (sampleNodeGroup "" "" "")).1.rs.outputs OutputName.NodeGroupInstanceProfileARN
          = some fP ∧
      Map.get? (NodeGroupResourceSet.addResourcesForIAM sampleRoutine
        (sampleNodeGroup "" "" "")).1.rs.outputs OutputName.NodeGroupInstanceRoleARN
          = some fR ∧
      (fR "R" (fP "P" (sampleNodeGroup "" "" "").spec).1).1.IAM.InstanceProfileARN = "P" ∧
      (fR "R" (fP "P" (sampleNodeGroup "" "" "").spec).1).1.IAM.InstanceRoleARN = "R" :=
  ⟨rfl, rfl, by decide, by
    obtain ⟨fP, fR, h1, h2, _, _, h5, _⟩ :=
      node_managed_roundtrip sampleRoutine (sampleNodeGroup "" "" "") rfl rfl (by decide)
        "P" "R" (sampleNodeGroup "" "" "").spec
    exact ⟨fP, fR, h1, h2, by rw [h5], by rw [h5]⟩⟩

/-! ## Node group: the import of the role -/

/-- C4: in the external-profile-without-role state, on a graph where the profile-ARN output is
not bound yet, the write-back bound to that output, resolved with a value for which the
role-import collaborator returns an error, returns exactly that error and leaves the
specification, and so its instance-role field, as it was. -/
theorem node_import_error_surfaced (routine : RoleRoutine) (n : NodeGroupResourceSet)
    (hP : n.spec.IAM.InstanceProfileARN ≠ "") (hR : n.spec.IAM.InstanceRoleARN = "")
    (hfresh : Map.get? n.rs.template.Outputs OutputName.NodeGroupInstanceProfileARN = none)
    (v : String) (e : Error) (herr : n.provider.roleOfProfile v = Except.error e)
    (spec : NodeGroup) :
    ∃ f : Collector NodeGroup,
      Map.get? (NodeGroupResourceSet.addResourcesForIAM routine n).1.rs.outputs
        OutputName.NodeGroupInstanceProfileARN = some f ∧
      (f v spec).2 = some e ∧
      (f v spec).1.IAM.InstanceRoleARN = spec.IAM.InstanceRoleARN ∧
      (f v spec).1 = spec := by
  rw [NodeGroupResourceSet.addResourcesForIAM_profile_only routine n hP hR hfresh]
  refine ⟨NodeGroupResourceSet.collectImportedRole n.provider, Map.get?_set_self _ _ _, ?_, ?_, ?_⟩
  all_goals
    simp [NodeGroupResourceSet.collectImportedRole, iam.ImportInstanceRoleFromProfileARN, herr]

/-- Witness of C4 on an empty graph, with a collaborator that knows no profile. -/
theorem node_import_error_surfaced_witness :
    (sampleNodeGroup "arn:profile:1" "" "").spec.IAM.InstanceProfileARN ≠ "" ∧
    (sampleNodeGroup "arn:profile:1" "" "").spec.IAM.InstanceRoleARN = "" ∧
    Map.get? (sampleNodeGroup "arn:profile:1" "" "").rs.template.Outputs
      OutputName.NodeGroupInstanceProfileARN = none ∧
    (sampleNodeGroup "arn:profile:1" "" "").provider.roleOfProfile "arn:profile:1"
      = Except.error (Error.RoleImportError "no role for this profile") ∧
    ∃ f : Collector NodeGroup,
      Map.get? (NodeGroupResourceSet.addResourcesForIAM sampleRoutine
        (sampleNodeGroup "arn:profile:1" "" "")).1.rs.outputs
        OutputName.NodeGroupInstanceProfileARN = some f ∧
      (f "arn:profile:1" (sampleNodeGroup "arn:profile:1" "" "").spec).2
        = some (Error.RoleImportError "no role for this profile") ∧
      (f "arn:profile:1" (sampleNodeGroup "arn:profile:1" "" "").spec).1.IAM.InstanceRoleARN
        = "" :=
  ⟨by decide, rfl, rfl, rfl, by
    obtain ⟨f, h1, h2, h3, _⟩ :=
      node_import_error_surfaced sampleRoutine (sampleNodeGroup "arn:profile:1" "" "")
        (by decide) rfl rfl "arn:profile:1" (Error.RoleImportError "no role for this profile")
        rfl (sampleNodeGroup "arn:profile:1" "" "").spec
    exact ⟨f, h1, h2, h3⟩⟩

/-! ## Cluster: explicit results -/

/-- The result of cluster planning when a service role is supplied, on a graph where the
service-role-ARN output is not bound yet. -/
theorem ClusterResourceSet.plan_external (c : ClusterResourceSet)
    (hSet : api.IsSetAndNonEmptyString c.spec.IAM.ServiceRoleARN = true)
    (hfresh : Map.get? c.rs.template.Outputs OutputName.ClusterServiceRoleARN = none) :
    ClusterResourceSet.addResourcesForIAM c =
      { c with rs := {
          template := { c.rs.template with
            Outputs := c.rs.template.Outputs ++
              [(OutputName.ClusterServiceRoleARN,
                { Value := Value.strPtr c.spec.IAM.ServiceRoleARN, Export := true })] }
          outputs := Map.set c.rs.outputs OutputName.ClusterServiceRoleARN doNothing
          withIAM := false
          withNamedIAM := false } } := by
  unfold ClusterResourceSet.addResourcesForIAM
  simp [hSet, resourceSet.defineOutputWithoutCollector, resourceSet.defineOutput_of_fresh,
    hfresh]

/-- The resources and flags after cluster planning when no service role is supplied, on a graph
where none of the three resource names is declared yet; the binding of the output may fail or
not. -/
theorem ClusterResourceSet.plan_created_resources (c : ClusterResourceSet)
    (hNo : api.IsSetAndNonEmptyString c.spec.IAM.ServiceRoleARN = false)
    (h1 : Map.get? c.rs.template.Resources "ServiceRole" = none)
    (h2 : Map.get? c.rs.template.Resources "PolicyCloudWatchMetrics" = none)
    (h3 : Map.get? c.rs.template.Resources "PolicyELBPermissions" = none) :
    (ClusterResourceSet.addResourcesForIAM c).rs.template.Resources
      = c.rs.template.Resources ++ ClusterResourceSet.createdResources c.spec ∧
    (ClusterResourceSet.addResourcesForIAM c).rs.withIAM = true ∧
    (ClusterResourceSet.addResourcesForIAM c).rs.withNamedIAM = false := by
  unfold ClusterResourceSet.addResourcesForIAM
  simp [hNo, ClusterResourceSet.newResource, resourceSet.attachAllowPolicy,
    resourceSet.newResource_of_fresh, resourceSet.defineOutputFromAtt,
    resourceSet.defineOutput_Resources, resourceSet.defineOutput_withIAM,
    resourceSet.defineOutput_withNamedIAM, Map.get?_append_of_none, Map.get?, h1, h2, h3,
    ClusterResourceSet.createdResources, ClusterResourceSet.serviceRole]
  split_ifs <;> rfl

/-- The result of cluster planning when no service role is supplied, on a graph where none of
the names the planner uses is taken yet. -/
theorem ClusterResourceSet.plan_created (c : ClusterResourceSet)
    (hNo : api.IsSetAndNonEmptyString c.spec.IAM.ServiceRoleARN = false)
    (h1 : Map.get? c.rs.template.Resources "ServiceRole" = none)
    (h2 : Map.get? c.rs.template.Resources "PolicyCloudWatchMetrics" = none)
    (h3 : Map.get? c.rs.template.Resources "PolicyELBPermissions" = none)
    (hfresh : Map.get? c.rs.template.Outputs OutputName.ClusterServiceRoleARN = none) :
    ClusterResourceSet.addResourcesForIAM c =
      { c with rs := {
          template := {
            Resources := c.rs.template.Resources ++ ClusterResourceSet.createdResources c.spec
            Outputs := c.rs.template.Outputs ++
              [(OutputName.ClusterServiceRoleARN,
                { Value := Value.getAtt "ServiceRole" "Arn", Export := true })] }
          outputs := Map.set c.rs.outputs OutputName.ClusterServiceRoleARN
            ClusterResourceSet.collectServiceRoleARN
          withIAM := true
          withNamedIAM := false } } := by
  unfold ClusterResourceSet.addResourcesForIAM
  simp [hNo, ClusterResourceSet.newResource, resourceSet.attachAllowPolicy,
    resourceSet.newResource_of_fresh, resourceSet.defineOutputFromAtt,
    resourceSet.defineOutput_of_fresh, Map.get?_append_of_none, Map.get?, h1, h2, h3, hfresh,
    ClusterResourceSet.createdResources, ClusterResourceSet.serviceRole]
  split_ifs <;> rfl

/-! ## Cluster -/

/-- C5: for a cluster specification without a supplied service-role ARN, planned on a graph
where `ServiceRole` is not declared yet, the resource `ServiceRole` of the resulting graph is a
role whose managed-policy list is exactly [AmazonEKSClusterPolicy] when
`VPCResourceControllerPolicy` is set to false, and exactly [AmazonEKSClusterPolicy,
AmazonEKSVPCResourceController], in that order, when the flag is unset or true. -/
theorem cluster_service_role_managed_policies (c : ClusterResourceSet)
    (hNo : api.IsSetAndNonEmptyString c.spec.IAM.ServiceRoleARN = false)
    (hfresh : Map.get? c.rs.template.Resources "ServiceRole" = none) :
    ∃ role : Role,
      Map.get? (ClusterResourceSet.addResourcesForIAM c).rs.template.Resources "ServiceRole"
        = some (Resource.Role role) ∧
      (c.spec.IAM.VPCResourceControllerPolicy = some false →
        role.ManagedPolicyArns = [Value.policyARN "AmazonEKSClusterPolicy"]) ∧
      (c.spec.IAM.VPCResourceControllerPolicy ≠ some false →
        role.ManagedPolicyArns = [Value.policyARN "AmazonEKSClusterPolicy",
          Value.policyARN "AmazonEKSVPCResourceController"]) := by
  refine ⟨ClusterResourceSet.serviceRole c.spec, ?_, ?_, ?_⟩
  · unfold ClusterResourceSet.addResourcesForIAM
    simp [hNo, ClusterResourceSet.newResource, resourceSet.attachAllowPolicy,
      resourceSet.defineOutputFromAtt, resourceSet.defineOutput_Resources,
      resourceSet.newResource_get?_of_ne, resourceSet.newResource_of_fresh,
      Map.get?_append_of_none, Map.get?, hfresh, ClusterResourceSet.serviceRole]
    split_ifs <;> rfl
  · intro h
    simp [ClusterResourceSet.serviceRole, h, api.IsDisabled, makePolicyARNs,
      iamPolicyAmazonEKSClusterPolicy]
  · intro h
    have hd : api.IsDisabled c.spec.IAM.VPCResourceControllerPolicy = false := by
      cases hv : c.spec.IAM.VPCResourceControllerPolicy with
      | none => rfl
      | some b =>
        cases b with
        | true => rfl
        | false => exact absurd hv h
    simp [ClusterResourceSet.serviceRole, hd, makePolicyARNs, iamPolicyAmazonEKSClusterPolicy,
      iamPolicyAmazonEKSVPCResourceController]

/-- Witness of C5 on an empty graph, with the controller policy disabled. -/
theorem cluster_service_role_managed_policies_witness :
    api.IsSetAndNonEmptyString (sampleCluster none (some false)).spec.IAM.ServiceRoleARN = false ∧
    Map.get? (sampleCluster none (some false)).rs.template.Resources "ServiceRole" = none ∧
    ∃ role : Role,
      Map.get? (ClusterResourceSet.addResourcesForIAM
        (sampleCluster none (some false))).rs.template.Resources "ServiceRole"
        = some (Resource.Role role) ∧
      role.ManagedPolicyArns = [Value.policyARN "AmazonEKSClusterPolicy"] :=
  ⟨rfl, rfl, by
    obtain ⟨role, h1, h2, _⟩ :=
      cluster_service_role_managed_policies (sampleCluster none (some false)) rfl rfl
    exact ⟨role, h1, h2 rfl⟩⟩

/-- C6: for a cluster specification whose `ServiceRoleARN` is set and non-empty, planned on a
graph where the service-role-ARN output is not bound yet, `addResourcesForIAM` (which has no
result) sets `withIAM` and `withNamedIAM` to false, leaves the resource map unchanged, and
registers exactly one output: the cluster service-role-ARN output, exported, a pass-through
whose value is the supplied identifier and whose write-back writes nothing. -/
theorem cluster_external_role (c : ClusterResourceSet)
    (hSet : api.IsSetAndNonEmptyString c.spec.IAM.ServiceRoleARN = true)
    (hfresh : Map.get? c.rs.template.Outputs OutputName.ClusterServiceRoleARN = none) :
    (ClusterResourceSet.addResourcesForIAM c).WithIAM = false ∧
    (ClusterResourceSet.addResourcesForIAM c).WithNamedIAM = false ∧
    (ClusterResourceSet.addResourcesForIAM c).rs.template.Resources
      = c.rs.template.Resources ∧
    (∃ arn : String, c.spec.IAM.ServiceRoleARN = some arn ∧ arn ≠ "" ∧
      (ClusterResourceSet.addResourcesForIAM c).rs.template.Outputs
        = c.rs.template.Outputs ++
            [(OutputName.ClusterServiceRoleARN,
              { Value := Value.strPtr (some arn), Export := true })]) ∧
    (ClusterResourceSet.addResourcesForIAM c).rs.outputs
      = Map.set c.rs.outputs OutputName.ClusterServiceRoleARN doNothing ∧
    Map.get? (ClusterResourceSet.addResourcesForIAM c).rs.outputs
        OutputName.ClusterServiceRoleARN = some doNothing ∧
    (∀ (v : String) (spec : ClusterConfig), doNothing v spec = (spec, none)) ∧
    (ClusterResourceSet.addResourcesForIAM c).spec = c.spec := by
  rw [ClusterResourceSet.plan_external c hSet hfresh]
  refine ⟨rfl, rfl, rfl, ?_, rfl, Map.get?_set_self _ _ _, fun _ _ => rfl, rfl⟩
  cases harn : c.spec.IAM.ServiceRoleARN with
  | none => simp [harn, api.IsSetAndNonEmptyString] at hSet
  | some arn =>
    refine ⟨arn, rfl, ?_, ?_⟩
    · simpa [harn, api.IsSetAndNonEmptyString] using hSet
    · simp [harn]

/-- Witness of C6 on an empty graph, for the service role `arn:role:1`. -/
theorem cluster_external_role_witness :
    api.IsSetAndNonEmptyString
      (sampleCluster (some "arn:role:1") none).spec.IAM.ServiceRoleARN = true ∧
    Map.get? (sampleCluster (some "arn:role:1") none).rs.template.Outputs
      OutputName.ClusterServiceRoleARN = none ∧
    (ClusterResourceSet.addResourcesForIAM
      (sampleCluster (some "arn:role:1") none)).WithIAM = false ∧
    (ClusterResourceSet.addResourcesForIAM
      (sampleCluster (some "arn:role:1") none)).rs.template.Resources = [] :=
  ⟨by decide, rfl,
    (cluster_external_role (sampleCluster (some "arn:role:1") none) (by decide) rfl).1,
    (cluster_external_role (sampleCluster (some "arn:role:1") none) (by decide) rfl).2.2.1⟩

/-! ## Cluster: the declared resources -/

/-- C12: for a cluster specification without a supplied service-role ARN, planned on a graph
where none of the three resource names is declared yet, `addResourcesForIAM` sets `withIAM` to
true and declares exactly three resources: the role `ServiceRole`, trusted by the EKS and the
EKSFargatePods service principals; the policy `PolicyCloudWatchMetrics`, allowing exactly
[cloudwatch:PutMetricData] on "*"; and the policy `PolicyELBPermissions`, allowing exactly
[ec2:DescribeAccountAttributes, ec2:DescribeAddresses, ec2:DescribeInternetGateways] on "*".
Each policy is attached to `ServiceRole` and to no other role, and the role has a permission
boundary exactly when `ServiceRolePermissionsBoundary` is set and non-empty; it is then the
supplied one. -/
theorem cluster_created_resources (c : ClusterResourceSet)
    (hNo : api.IsSetAndNonEmptyString c.spec.IAM.ServiceRoleARN = false)
    (h1 : Map.get? c.rs.template.Resources "ServiceRole" = none)
    (h2 : Map.get? c.rs.template.Resources "PolicyCloudWatchMetrics" = none)
    (h3 : Map.get? c.rs.template.Resources "PolicyELBPermissions" = none) :
    (ClusterResourceSet.addResourcesForIAM c).WithIAM = true ∧
    ∃ role : Role,
      (ClusterResourceSet.addResourcesForIAM c).rs.template.Resources
        = c.rs.template.Resources ++
          [("ServiceRole", Resource.Role role),
            ("PolicyCloudWatchMetrics", Resource.Policy {
              PolicyName := makeName "PolicyCloudWatchMetrics"
              Roles := [Value.ref "ServiceRole"]
              PolicyDocument := PolicyDocument.statements
                [{ Effect := "Allow", Resource := ResourcePattern.single "*",
                    Action := ["cloudwatch:PutMetricData"] }] }),
            ("PolicyELBPermissions", Resource.Policy {
              PolicyName := makeName "PolicyELBPermissions"
              Roles := [Value.ref "ServiceRole"]
              PolicyDocument := PolicyDocument.statements
                [{ Effect := "Allow", Resource := ResourcePattern.single "*",
                    Action := ["ec2:DescribeAccountAttributes", "ec2:DescribeAddresses",
                      "ec2:DescribeInternetGateways"] }] })] ∧
      role.AssumeRolePolicyDocument = PolicyDocument.assumeRoleForServices
        [MakeServiceRef "EKS", MakeServiceRef "EKSFargatePods"] ∧
      (role.PermissionsBoundary.isSome = true ↔
        api.IsSetAndNonEmptyString c.spec.IAM.ServiceRolePermissionsBoundary = true) ∧
      (∀ b : String, c.spec.IAM.ServiceRolePermissionsBoundary = some b → b ≠ "" →
        role.PermissionsBoundary = some (Value.str b)) := by
  obtain ⟨hres, hIAM, _⟩ := ClusterResourceSet.plan_created_resources c hNo h1 h2 h3
  refine ⟨hIAM, ClusterResourceSet.serviceRole c.spec, hres, rfl, ?_, ?_⟩
  · by_cases hb : api.IsSetAndNonEmptyString c.spec.IAM.ServiceRolePermissionsBoundary = true
    · simp [ClusterResourceSet.serviceRole, hb]
    · simp [ClusterResourceSet.serviceRole, hb]
  · intro b hb hne
    simp [ClusterResourceSet.serviceRole, hb, api.IsSetAndNonEmptyString, hne]

/-- Witness of C12 on an empty graph, for a specification with no service role. -/
theorem cluster_created_resources_witness :
    api.IsSetAndNonEmptyString (sampleCluster none none).spec.IAM.ServiceRoleARN = false ∧
    Map.get? (sampleCluster none none).rs.template.Resources "ServiceRole" = none ∧
    Map.get? (sampleCluster none none).rs.template.Resources "PolicyCloudWatchMetrics" = none ∧
    Map.get? (sampleCluster none none).rs.template.Resources "PolicyELBPermissions" = none ∧
    (ClusterResourceSet.addResourcesForIAM (sampleCluster none none)).WithIAM = true ∧
    (ClusterResourceSet.addResourcesForIAM
      (sampleCluster none none)).rs.template.Resources.length = 3 :=
  ⟨rfl, rfl, rfl, rfl,
    (cluster_created_resources (sampleCluster none none) rfl rfl rfl rfl).1, by
    obtain ⟨_, role, hres, _⟩ :=
      cluster_created_resources (sampleCluster none none) rfl rfl rfl rfl
    rw [hres]
    rfl⟩

/-! ## Node group: explicit results of the external states -/

/-- The result of node planning when a profile and a role are supplied, on a graph where the
two node outputs are not bound yet. -/
theorem NodeGroupResourceSet.addResourcesForIAM_profile_and_role (routine : RoleRoutine)
    (n : NodeGroupResourceSet)
    (hP : n.spec.IAM.InstanceProfileARN ≠ "") (hR : n.spec.IAM.InstanceRoleARN ≠ "")
    (hfreshP : Map.get? n.rs.template.Outputs OutputName.NodeGroupInstanceProfileARN = none)
    (hfreshR : Map.get? n.rs.template.Outputs OutputName.NodeGroupInstanceRoleARN = none) :
    NodeGroupResourceSet.addResourcesForIAM routine n =
      ({ n with
          rs := {
            template := { n.rs.template with
              Outputs := n.rs.template.Outputs ++
                [(OutputName.NodeGroupInstanceProfileARN,
                    { Value := Value.str n.spec.IAM.InstanceProfileARN, Export := true }),
                  (OutputName.NodeGroupInstanceRoleARN,
                    { Value := Value.str n.spec.IAM.InstanceRoleARN, Export := true })] }
            outputs := Map.set (Map.set n.rs.outputs OutputName.NodeGroupInstanceProfileARN
              doNothing) OutputName.NodeGroupInstanceRoleARN doNothing
            withIAM := false
            withNamedIAM := false }
          instanceProfileARN := some (Value.str n.spec.IAM.InstanceProfileARN) }, none) := by
  unfold NodeGroupResourceSet.addResourcesForIAM
  simp [hP, hR, resourceSet.defineOutputWithoutCollector, resourceSet.defineOutput_of_fresh,
    Map.get?_append_single_of_ne, hfreshP, hfreshR]

/-- The result of node planning when a role is supplied and no profile is, on a graph where
`NodeInstanceProfile` is not declared and the two node outputs are not bound yet. -/
theorem NodeGroupResourceSet.addResourcesForIAM_role_only (routine : RoleRoutine)
    (n : NodeGroupResourceSet)
    (hP : n.spec.IAM.InstanceProfileARN = "") (hR : n.spec.IAM.InstanceRoleARN ≠ "")
    (hfresh : Map.get? n.rs.template.Resources cfnIAMInstanceProfileName = none)
    (hfreshP : Map.get? n.rs.template.Outputs OutputName.NodeGroupInstanceProfileARN = none)
    (hfreshR : Map.get? n.rs.template.Outputs OutputName.NodeGroupInstanceRoleARN = none) :
    NodeGroupResourceSet.addResourcesForIAM routine n =
      ({ n with
          rs := {
            template := {
              Resources := n.rs.template.Resources ++
                [(cfnIAMInstanceProfileName, Resource.InstanceProfile {
                    Path := Value.str "/", Roles := [Value.str n.spec.IAM.InstanceRoleARN] })]
              Outputs := n.rs.template.Outputs ++
                [(OutputName.NodeGroupInstanceProfileARN,
                    { Value := Value.getAtt cfnIAMInstanceProfileName "Arn", Export := true }),
                  (OutputName.NodeGroupInstanceRoleARN,
                    { Value := Value.str n.spec.IAM.InstanceRoleARN, Export := true })] }
            outputs := Map.set (Map.set n.rs.outputs OutputName.NodeGroupInstanceProfileARN
              NodeGroupResourceSet.collectInstanceProfileARN)
              OutputName.NodeGroupInstanceRoleARN doNothing
            withIAM := true
            withNamedIAM := n.rs.withNamedIAM }
          instanceProfileARN := some (Value.getAtt cfnIAMInstanceProfileName "Arn") }, none) := by
  unfold NodeGroupResourceSet.addResourcesForIAM
  simp [hP, hR, NodeGroupResourceSet.newResource, resourceSet.newResource_of_fresh,
    resourceSet.defineOutputWithoutCollector, resourceSet.defineOutputFromAtt,
    resourceSet.defineOutput_of_fresh, Map.get?_append_single_of_ne, hfresh, hfreshP, hfreshR]

/-! ## Node group: external role -/

/-- C7: for a node-group specification with an empty `InstanceProfileARN` and a non-empty
`InstanceRoleARN`, planned on a graph where `NodeInstanceProfile` is not declared and the two
node outputs are not bound yet, `addResourcesForIAM` returns no error and declares exactly one
resource, the instance profile `NodeInstanceProfile` with path "/" and a role list that holds
exactly the supplied role identifier as a literal string; no role resource is declared.  The
profile-ARN output is bound to the `Arn` attribute of `NodeInstanceProfile` with a write-back
that sets `InstanceProfileARN`, and the role-ARN output is a pass-through whose value is the
supplied role identifier. -/
theorem node_external_role (routine : RoleRoutine) (n : NodeGroupResourceSet)
    (hP : n.spec.IAM.InstanceProfileARN = "") (hR : n.spec.IAM.InstanceRoleARN ≠ "")
    (hfresh : Map.get? n.rs.template.Resources cfnIAMInstanceProfileName = none)
    (hfreshP : Map.get? n.rs.template.Outputs OutputName.NodeGroupInstanceProfileARN = none)
    (hfreshR : Map.get? n.rs.template.Outputs OutputName.NodeGroupInstanceRoleARN = none) :
    (NodeGroupResourceSet.addResourcesForIAM routine n).2 = none ∧
    (NodeGroupResourceSet.addResourcesForIAM routine n).1.rs.template.Resources
      = n.rs.template.Resources ++
          [("NodeInstanceProfile", Resource.InstanceProfile {
              Path := Value.str "/", Roles := [Value.str n.spec.IAM.InstanceRoleARN] })] ∧
    (NodeGroupResourceSet.addResourcesForIAM routine n).1.rs.template.Outputs
      = n.rs.template.Outputs ++
          [(OutputName.NodeGroupInstanceProfileARN,
              { Value := Value.getAtt "NodeInstanceProfile" "Arn", Export := true }),
            (OutputName.NodeGroupInstanceRoleARN,
              { Value := Value.str n.spec.IAM.InstanceRoleARN, Export := true })] ∧
    (∃ f : Collector NodeGroup,
      Map.get? (NodeGroupResourceSet.addResourcesForIAM routine n).1.rs.outputs
        OutputName.NodeGroupInstanceProfileARN = some f ∧
      ∀ (v : String) (spec : NodeGroup),
        f v spec = ({ spec with IAM := { spec.IAM with InstanceProfileARN := v } }, none)) ∧
    Map.get? (NodeGroupResourceSet.addResourcesForIAM routine n).1.rs.outputs
      OutputName.NodeGroupInstanceRoleARN = some doNothing ∧
    (NodeGroupResourceSet.addResourcesForIAM routine n).1.rs.outputs
      = Map.set (Map.set n.rs.outputs OutputName.NodeGroupInstanceProfileARN
          NodeGroupResourceSet.collectInstanceProfileARN)
          OutputName.NodeGroupInstanceRoleARN doNothing := by
  rw [NodeGroupResourceSet.addResourcesForIAM_role_only routine n hP hR hfresh hfreshP hfreshR]
  refine ⟨rfl, rfl, rfl, ⟨NodeGroupResourceSet.collectInstanceProfileARN, ?_, fun _ _ => rfl⟩,
    Map.get?_set_self _ _ _, rfl⟩
  show Map.get? (Map.set (Map.set n.rs.outputs _ _) _ _) _ = _
  rw [Map.get?_set_of_ne _ _ _ _ (by decide), Map.get?_set_self]

/-- Witness of C7 on an empty graph, for the role `arn:role:1`. -/
theorem node_external_role_witness :
    (sampleNodeGroup "" "arn:role:1" "").spec.IAM.InstanceProfileARN = "" ∧
    (sampleNodeGroup "" "arn:role:1" "").spec.IAM.InstanceRoleARN ≠ "" ∧
    Map.get? (sampleNodeGroup "" "arn:role:1" "").rs.template.Resources
      cfnIAMInstanceProfileName = none ∧
    Map.get? (sampleNodeGroup "" "arn:role:1" "").rs.template.Outputs
      OutputName.NodeGroupInstanceProfileARN = none ∧
    Map.get? (sampleNodeGroup "" "arn:role:1" "").rs.template.Outputs
      OutputName.NodeGroupInstanceRoleARN = none ∧
    (NodeGroupResourceSet.addResourcesForIAM sampleRoutine
      (sampleNodeGroup "" "arn:role:1" "")).2 = none ∧
    (NodeGroupResourceSet.addResourcesForIAM sampleRoutine
      (sampleNodeGroup "" "arn:role:1" "")).1.rs.template.Resources
      = [] ++ [("NodeInstanceProfile", Resource.InstanceProfile {
          Path := Value.str "/", Roles := [Value.str "arn:role:1"] })] :=
  ⟨rfl, by decide, rfl, rfl, rfl,
    (node_external_role sampleRoutine (sampleNodeGroup "" "arn:role:1" "")
      rfl (by decide) rfl rfl rfl).1,
    (node_external_role sampleRoutine (sampleNodeGroup "" "arn:role:1" "")
      rfl (by decide) rfl rfl rfl).2.1⟩

/-! ## Node group: external profile and role -/

/-- C8: for a node-group specification with a non-empty `InstanceProfileARN` and a non-empty
`InstanceRoleARN`, planned on a graph where the two node outputs are not bound yet,
`addResourcesForIAM` returns no error, declares no resource, and registers exactly two outputs,
both pass-through: the profile-ARN output with the supplied profile identifier as value and the
role-ARN output with the supplied role identifier as value, each with a write-back that writes
nothing. -/
theorem node_external_profile_and_role (routine : RoleRoutine) (n : NodeGroupResourceSet)
    (hP : n.spec.IAM.InstanceProfileARN ≠ "") (hR : n.spec.IAM.InstanceRoleARN ≠ "")
    (hfreshP : Map.get? n.rs.template.Outputs OutputName.NodeGroupInstanceProfileARN = none)
    (hfreshR : Map.get? n.rs.template.Outputs OutputName.NodeGroupInstanceRoleARN = none) :
    (NodeGroupResourceSet.addResourcesForIAM routine n).2 = none ∧
    (NodeGroupResourceSet.addResourcesForIAM routine n).1.rs.template.Resources
      = n.rs.template.Resources ∧
    (NodeGroupResourceSet.addResourcesForIAM routine n).1.rs.template.Outputs
      = n.rs.template.Outputs ++
          [(OutputName.NodeGroupInstanceProfileARN,
              { Value := Value.str n.spec.IAM.InstanceProfileARN, Export := true }),
            (OutputName.NodeGroupInstanceRoleARN,
              { Value := Value.str n.spec.IAM.InstanceRoleARN, Export := true })] ∧
    (NodeGroupResourceSet.addResourcesForIAM routine n).1.rs.outputs
      = Map.set (Map.set n.rs.outputs OutputName.NodeGroupInstanceProfileARN doNothing)
          OutputName.NodeGroupInstanceRoleARN doNothing ∧
    Map.get? (NodeGroupResourceSet.addResourcesForIAM routine n).1.rs.outputs
      OutputName.NodeGroupInstanceProfileARN = some doNothing ∧
    Map.get? (NodeGroupResourceSet.addResourcesForIAM routine n).1.rs.outputs
      OutputName.NodeGroupInstanceRoleARN = some doNothing ∧
    (∀ (v : String) (spec : NodeGroup), doNothing v spec = (spec, none)) := by
  rw [NodeGroupResourceSet.addResourcesForIAM_profile_and_role routine n hP hR hfreshP hfreshR]
  refine ⟨rfl, rfl, rfl, rfl, ?_, Map.get?_set_self _ _ _, fun _ _ => rfl⟩
  show Map.get? (Map.set (Map.set n.rs.outputs _ _) _ _) _ = _
  rw [Map.get?_set_of_ne _ _ _ _ (by decide), Map.get?_set_self]

/-- Witness of C8 on an empty graph, for the profile `arn:profile:1` and role `arn:role:1`. -/
theorem node_external_profile_and_role_witness :
    (sampleNodeGroup "arn:profile:1" "arn:role:1" "").spec.IAM.InstanceProfileARN ≠ "" ∧
    (sampleNodeGroup "arn:profile:1" "arn:role:1" "").spec.IAM.InstanceRoleARN ≠ "" ∧
    Map.get? (sampleNodeGroup "arn:profile:1" "arn:role:1" "").rs.template.Outputs
      OutputName.NodeGroupInstanceProfileARN = none ∧
    Map.get? (sampleNodeGroup "arn:profile:1" "arn:role:1" "").rs.template.Outputs
      OutputName.NodeGroupInstanceRoleARN = none ∧
    (NodeGroupResourceSet.addResourcesForIAM sampleRoutine
      (sampleNodeGroup "arn:profile:1" "arn:role:1" "")).2 = none ∧
    (NodeGroupResourceSet.addResourcesForIAM sampleRoutine
      (sampleNodeGroup "arn:profile:1" "arn:role:1" "")).1.rs.template.Resources = [] :=
  ⟨by decide, by decide, rfl, rfl,
    (node_external_profile_and_role sampleRoutine
      (sampleNodeGroup "arn:profile:1" "arn:role:1" "") (by decide) (by decide) rfl rfl).1,
    (node_external_profile_and_role sampleRoutine
      (sampleNodeGroup "arn:profile:1" "arn:role:1" "") (by decide) (by decide) rfl rfl).2.1⟩

/-! ## Service account -/

/-- C9: for every service-account specification, `AddAllResources` on the resource set built by
`NewIAMServiceAccountResourceSet` returns no error and declares the role `Role1`, whose
managed-policy list is the specification's `AttachPolicyARNs` (same elements, same order), whose
permission boundary is the specification's and whose trust document is the one the collaborator
makes for the namespace and name.  It also declares the policy `Policy1`, attached to `Role1`
and holding the inline document, exactly when `AttachPolicy` is non-empty.  No other resource is
declared. -/
theorem service_account_resources (spec : ClusterIAMServiceAccount)
    (oidc : OpenIDConnectManager) :
    ((NewIAMServiceAccountResourceSet spec oidc).AddAllResources).2 = none ∧
    ((NewIAMServiceAccountResourceSet spec oidc).AddAllResources).1.template.Resources
      = ("Role1", cft.Resource.IAMRole {
            AssumeRolePolicyDocument := oidc.MakeAssumeRolePolicyDocument spec.Namespace spec.Name
            PermissionsBoundary := spec.PermissionsBoundary
            ManagedPolicyArns := spec.AttachPolicyARNs }) ::
        (if spec.AttachPolicy ≠ [] then
          [("Policy1", cft.Resource.IAMPolicy {
              Roles := [cft.Value.ref "Role1"], PolicyDocument := spec.AttachPolicy })]
        else []) ∧
    ((Map.get? ((NewIAMServiceAccountResourceSet spec oidc).AddAllResources).1.template.Resources
        "Policy1").isSome ↔ spec.AttachPolicy ≠ []) := by
  have hres : ((NewIAMServiceAccountResourceSet spec oidc).AddAllResources).2 = none ∧
      ((NewIAMServiceAccountResourceSet spec oidc).AddAllResources).1.template.Resources
      = ("Role1", cft.Resource.IAMRole {
            AssumeRolePolicyDocument := oidc.MakeAssumeRolePolicyDocument spec.Namespace spec.Name
            PermissionsBoundary := spec.PermissionsBoundary
            ManagedPolicyArns := spec.AttachPolicyARNs }) ::
        (if spec.AttachPolicy ≠ [] then
          [("Policy1", cft.Resource.IAMPolicy {
              Roles := [cft.Value.ref "Role1"], PolicyDocument := spec.AttachPolicy })]
        else []) := by
    unfold IAMServiceAccountResourceSet.AddAllResources NewIAMServiceAccountResourceSet
    by_cases hA : spec.AttachPolicy = []
    · simp [hA, cft.NewTemplate, cft.Template.NewResource, Map.contains, Map.get?, Map.set]
    · simp [hA, cft.NewTemplate, cft.Template.NewResource, cft.Template.AttachPolicy,
        Map.contains, Map.get?, Map.set]
  refine ⟨hres.1, hres.2, ?_⟩
  rw [hres.2]
  by_cases hA : spec.AttachPolicy = [] <;> simp [hA, Map.get?]

/-- C10: for every service-account specification, after `AddAllResources` on the resource set
built by `NewIAMServiceAccountResourceSet` the template has exactly one output, `Role1`, taken
from the attribute `Role1.Arn`, and the collector set has exactly one binding, for `Role1`;
invoking that binding with any string `v`, on any state of the specification, returns no error
and replaces the status by one whose role ARN is `v`, leaving the other fields as they were.
`WithIAM` is true and `WithNamedIAM` is false for every such resource set. -/
theorem service_account_output (spec : ClusterIAMServiceAccount) (oidc : OpenIDConnectManager) :
    ((NewIAMServiceAccountResourceSet spec oidc).AddAllResources).1.template.Outputs
      = [("Role1", { Value := cft.Value.getAttString "Role1.Arn" })] ∧
    (∃ f : Collector ClusterIAMServiceAccount,
      ((NewIAMServiceAccountResourceSet spec oidc).AddAllResources).1.outputs
        = some [(OutputName.literal "Role1", f)] ∧
      ∀ (v : String) (s : ClusterIAMServiceAccount),
        f v s = ({ s with Status := some { RoleARN := some v } }, none)) ∧
    (∀ rs : IAMServiceAccountResourceSet, rs.WithIAM = true ∧ rs.WithNamedIAM = false) := by
  refine ⟨?_, ⟨IAMServiceAccountResourceSet.collectRole1, ?_, fun _ _ => rfl⟩,
    fun _ => ⟨rfl, rfl⟩⟩
  · unfold IAMServiceAccountResourceSet.AddAllResources NewIAMServiceAccountResourceSet
    by_cases hA : spec.AttachPolicy = []
    · simp [hA, cft.NewTemplate, cft.Template.NewResource, Map.contains, Map.get?, Map.set]
    · simp [hA, cft.NewTemplate, cft.Template.NewResource, cft.Template.AttachPolicy,
        Map.contains, Map.get?, Map.set]
  · unfold IAMServiceAccountResourceSet.AddAllResources NewIAMServiceAccountResourceSet
    by_cases hA : spec.AttachPolicy = []
    · simp [hA, cft.NewTemplate, cft.Template.NewResource, Map.contains, Map.get?, Map.set]
    · simp [hA, cft.NewTemplate, cft.Template.NewResource, cft.Template.AttachPolicy,
        Map.contains, Map.get?, Map.set]

/-! ## Node group: the named-IAM flag outside the named state -/

/-- C16: for a node-group specification with an empty `InstanceProfileARN` and either a
non-empty `InstanceRoleARN` or an empty `InstanceRoleName`, the value of `withNamedIAM` after
`addResourcesForIAM` equals its value before the call; so a resource set whose flag was already
true still reports `WithNamedIAM() = true`.  This holds whatever the role-creation routine does
and whether or not planning succeeds. -/
theorem node_named_flag_not_cleared (routine : RoleRoutine) (n : NodeGroupResourceSet)
    (hP : n.spec.IAM.InstanceProfileARN = "")
    (hState : n.spec.IAM.InstanceRoleARN ≠ "" ∨ n.spec.IAM.InstanceRoleName = "") :
    (NodeGroupResourceSet.addResourcesForIAM routine n).1.WithNamedIAM = n.WithNamedIAM ∧
    (n.WithNamedIAM = true →
      (NodeGroupResourceSet.addResourcesForIAM routine n).1.WithNamedIAM = true) := by
  have hflag : (NodeGroupResourceSet.addResourcesForIAM routine n).1.WithNamedIAM
      = n.WithNamedIAM := by
    obtain ⟨_, h2⟩ := NodeGroupResourceSet.addResourcesForIAM_flags routine n
    simp only [NodeGroupResourceSet.WithNamedIAM, h2]
    rcases hState with hR | hN
    · simp [hP, hR]
    · by_cases hR : n.spec.IAM.InstanceRoleARN = "" <;> simp [hP, hR, hN]
  exact ⟨hflag, fun h => by rw [hflag, h]⟩

/-- Witness of C16: a resource set whose flag is already true, planned for an external role. -/
theorem node_named_flag_not_cleared_witness :
    sampleNamedNodeGroup.spec.IAM.InstanceProfileARN = "" ∧
    (sampleNamedNodeGroup.spec.IAM.InstanceRoleARN ≠ "" ∨
      sampleNamedNodeGroup.spec.IAM.InstanceRoleName = "") ∧
    sampleNamedNodeGroup.WithNamedIAM = true ∧
    (NodeGroupResourceSet.addResourcesForIAM sampleRoutine sampleNamedNodeGroup).1.WithNamedIAM
      = true ∧
    (NodeGroupResourceSet.addResourcesForIAM sampleRoutine
      sampleNamedNodeGroup).1.rs.template.Resources
      = [("NodeInstanceProfile", Resource.InstanceProfile {
          Path := Value.str "/", Roles := [Value.str "arn:role:1"] })] :=
  ⟨rfl, Or.inl (by decide), rfl,
    (node_named_flag_not_cleared sampleRoutine sampleNamedNodeGroup rfl
      (Or.inl (by decide))).2 rfl,
    by decide⟩

/-! ## Node group: planning again after a round trip -/

/-- C17: planning after a round trip changes state.  Let a node-group specification in the
fully-managed state be planned without error, and let the write-backs bound to the profile-ARN
and role-ARN outputs be invoked on it with non-empty strings `P` and `R`.  A second run of
`addResourcesForIAM` on the resulting specification, with a fresh resource set, takes the
external-profile-and-role branch: it returns no error, sets `withIAM` and `withNamedIAM` to
false, declares no resource, and binds the two outputs as pass-through outputs with values `P`
and `R`. -/
theorem node_replan_after_roundtrip (routine routine2 : RoleRoutine) (n : NodeGroupResourceSet)
    (hP : n.spec.IAM.InstanceProfileARN = "") (hR : n.spec.IAM.InstanceRoleARN = "")
    (hok : (NodeGroupResourceSet.addResourcesForIAM routine n).2 = none)
    (P R : String) (hPne : P ≠ "") (hRne : R ≠ "")
    (fP fR : Collector NodeGroup)
    (hfP : Map.get? (NodeGroupResourceSet.addResourcesForIAM routine n).1.rs.outputs
      OutputName.NodeGroupInstanceProfileARN = some fP)
    (hfR : Map.get? (NodeGroupResourceSet.addResourcesForIAM routine n).1.rs.outputs
      OutputName.NodeGroupInstanceRoleARN = some fR)
    (clusterSpec2 : ClusterConfig) (provider2 : Provider) :
    (NodeGroupResourceSet.addResourcesForIAM routine2
      { rs := {}, clusterSpec := clusterSpec2, spec := (fR R (fP P n.spec).1).1,
        provider := provider2 }).2 = none ∧
    (NodeGroupResourceSet.addResourcesForIAM routine2
      { rs := {}, clusterSpec := clusterSpec2, spec := (fR R (fP P n.spec).1).1,
        provider := provider2 }).1.WithIAM = false ∧
    (NodeGroupResourceSet.addResourcesForIAM routine2
      { rs := {}, clusterSpec := clusterSpec2, spec := (fR R (fP P n.spec).1).1,
        provider := provider2 }).1.WithNamedIAM = false ∧
    (NodeGroupResourceSet.addResourcesForIAM routine2
      { rs := {}, clusterSpec := clusterSpec2, spec := (fR R (fP P n.spec).1).1,
        provider := provider2 }).1.rs.template.Resources = [] ∧
    (NodeGroupResourceSet.addResourcesForIAM routine2
      { rs := {}, clusterSpec := clusterSpec2, spec := (fR R (fP P n.spec).1).1,
        provider := provider2 }).1.rs.template.Outputs
      = [(OutputName.NodeGroupInstanceProfileARN, { Value := Value.str P, Export := true }),
          (OutputName.NodeGroupInstanceRoleARN, { Value := Value.str R, Export := true })] ∧
    (NodeGroupResourceSet.addResourcesForIAM routine2
      { rs := {}, clusterSpec := clusterSpec2, spec := (fR R (fP P n.spec).1).1,
        provider := provider2 }).1.rs.outputs
      = [(OutputName.NodeGroupInstanceProfileARN, doNothing),
          (OutputName.NodeGroupInstanceRoleARN, doNothing)] := by
  rw [NodeGroupResourceSet.addResourcesForIAM_managed_collectors routine n hP hR hok]
    at hfP hfR
  have hfP' : fP = NodeGroupResourceSet.collectInstanceProfileARN := by
    have h : Map.get? (Map.set (Map.set n.rs.outputs OutputName.NodeGroupInstanceProfileARN
        NodeGroupResourceSet.collectInstanceProfileARN) OutputName.NodeGroupInstanceRoleARN
        NodeGroupResourceSet.collectInstanceRoleARN) OutputName.NodeGroupInstanceProfileARN
        = some fP := hfP
    rw [Map.get?_set_of_ne _ _ _ _ (by decide), Map.get?_set_self] at h
    exact (Option.some.inj h).symm
  have hfR' : fR = NodeGroupResourceSet.collectInstanceRoleARN := by
    have h : Map.get? (Map.set (Map.set n.rs.outputs OutputName.NodeGroupInstanceProfileARN
        NodeGroupResourceSet.collectInstanceProfileARN) OutputName.NodeGroupInstanceRoleARN
        NodeGroupResourceSet.collectInstanceRoleARN) OutputName.NodeGroupInstanceRoleARN
        = some fR := hfR
    rw [Map.get?_set_self] at h
    exact (Option.some.inj h).symm
  subst hfP' hfR'
  have h2 := NodeGroupResourceSet.addResourcesForIAM_profile_and_role routine2
    { rs := {}, clusterSpec := clusterSpec2,
      spec := (NodeGroupResourceSet.collectInstanceRoleARN R
        (NodeGroupResourceSet.collectInstanceProfileARN P n.spec).1).1,
      provider := provider2 }
    hPne hRne rfl rfl
  rw [h2]
  exact ⟨rfl, rfl, rfl, rfl, rfl, rfl⟩

/-- Witness of C17 on an empty graph, with `P = arn:profile:9` and `R = arn:role:9`. -/
theorem node_replan_after_roundtrip_witness :
    (sampleNodeGroup "" "" "").spec.IAM.InstanceProfileARN = "" ∧
    (sampleNodeGroup "" "" "").spec.IAM.InstanceRoleARN = "" ∧
    (NodeGroupResourceSet.addResourcesForIAM sampleRoutine (sampleNodeGroup "" "" "")).2 = none ∧
    Map.get? (NodeGroupResourceSet.addResourcesForIAM sampleRoutine
      (sampleNodeGroup "" "" "")).1.rs.outputs OutputName.NodeGroupInstanceProfileARN
      = some NodeGroupResourceSet.collectInstanceProfileARN ∧
    Map.get? (NodeGroupResourceSet.addResourcesForIAM sampleRoutine
      (sampleNodeGroup "" "" "")).1.rs.outputs OutputName.NodeGroupInstanceRoleARN
      = some NodeGroupResourceSet.collectInstanceRoleARN ∧
    (NodeGroupResourceSet.addResourcesForIAM sampleRoutine
      { rs := {}, clusterSpec := {},
        spec := (NodeGroupResourceSet.collectInstanceRoleARN "arn:role:9"
          (NodeGroupResourceSet.collectInstanceProfileARN "arn:profile:9"
            (sampleNodeGroup "" "" "").spec).1).1,
        provider := failingProvider }).1.rs.template.Outputs
      = [(OutputName.NodeGroupInstanceProfileARN,
            { Value := Value.str "arn:profile:9", Export := true }),
          (OutputName.NodeGroupInstanceRoleARN,
            { Value := Value.str "arn:role:9", Export := true })] :=
  ⟨rfl, rfl, by decide, rfl, rfl,
    (node_replan_after_roundtrip sampleRoutine sampleRoutine (sampleNodeGroup "" "" "")
      rfl rfl (by decide) "arn:profile:9" "arn:role:9" (by decide) (by decide)
      NodeGroupResourceSet.collectInstanceProfileARN NodeGroupResourceSet.collectInstanceRoleARN
      rfl rfl {} failingProvider).2.2.2.2.1⟩

/-! ## Node group: the run in the fully-managed state -/

/-- In the fully-managed state, when the role-creation routine succeeds, the resource set after
planning is the one the routine left, followed by the declaration of `NodeInstanceProfile` and
the binding of the two outputs. -/
theorem NodeGroupResourceSet.addResourcesForIAM_managed_run (routine : RoleRoutine)
    (n : NodeGroupResourceSet)
    (hP : n.spec.IAM.InstanceProfileARN = "") (hR : n.spec.IAM.InstanceRoleARN = "")
    (hr : (routine n.rs.template n.clusterSpec.IAM n.spec.IAM false).2 = none) :
    (NodeGroupResourceSet.addResourcesForIAM routine n).1.rs
      = (((({ template := (routine n.rs.template n.clusterSpec.IAM n.spec.IAM false).1
              outputs := n.rs.outputs
              withIAM := true
              withNamedIAM :=
                if n.spec.IAM.InstanceRoleName ≠ "" then true else n.rs.withNamedIAM } :
            resourceSet NodeGroup).newResource cfnIAMInstanceProfileName
          (Resource.InstanceProfile {
            Path := Value.str "/", Roles := [Value.ref cfnIAMInstanceRoleName] })).1.defineOutput
          OutputName.NodeGroupInstanceProfileARN (Value.getAtt cfnIAMInstanceProfileName "Arn")
          true NodeGroupResourceSet.collectInstanceProfileARN).1.defineOutput
          OutputName.NodeGroupInstanceRoleARN (Value.getAtt cfnIAMInstanceRoleName "Arn")
          true NodeGroupResourceSet.collectInstanceRoleARN).1 := by
  unfold NodeGroupResourceSet.addResourcesForIAM
  by_cases hN : n.spec.IAM.InstanceRoleName = "" <;>
  simp [hP, hR, hN, hr, createRole, NodeGroupResourceSet.newResource,
    resourceSet.defineOutputFromAtt]

/-- In the fully-managed state, when the role-creation routine succeeds, `NodeInstanceProfile`
is declared after planning, and so is every resource the routine left declared. -/
theorem NodeGroupResourceSet.addResourcesForIAM_managed_declared (routine : RoleRoutine)
    (n : NodeGroupResourceSet)
    (hP : n.spec.IAM.InstanceProfileARN = "") (hR : n.spec.IAM.InstanceRoleARN = "")
    (hr : (routine n.rs.template n.clusterSpec.IAM n.spec.IAM false).2 = none) :
    Map.contains (NodeGroupResourceSet.addResourcesForIAM routine n).1.rs.template.Resources
      cfnIAMInstanceProfileName = true ∧
    ∀ k, Map.contains (routine n.rs.template n.clusterSpec.IAM n.spec.IAM false).1.Resources k
        = true →
      Map.contains (NodeGroupResourceSet.addResourcesForIAM routine n).1.rs.template.Resources k
        = true := by
  rw [NodeGroupResourceSet.addResourcesForIAM_managed_run routine n hP hR hr]
  simp only [resourceSet.defineOutput_Resources]
  exact resourceSet.newResource_declares _ _ _

/-! ## The flag `withIAM` and the declared resources -/

/-- C14: on an initially empty graph, the cluster planner (which has no result) and the node
planner, after a successful run (it succeeds unless the role-creation routine makes it fail),
end with `withIAM` true exactly when the graph holds at least one resource.  No resource is
declared when an external service role (cluster) or an external instance profile (node) is
supplied, and at least one resource is declared in every other state. -/
theorem with_iam_iff_resource_declared :
    (∀ c : ClusterResourceSet,
      c.rs.template.Resources = [] → c.rs.template.Outputs = [] →
      ((ClusterResourceSet.addResourcesForIAM c).WithIAM = true ↔
        (ClusterResourceSet.addResourcesForIAM c).rs.template.Resources ≠ []) ∧
      (api.IsSetAndNonEmptyString c.spec.IAM.ServiceRoleARN = true →
        (ClusterResourceSet.addResourcesForIAM c).rs.template.Resources = [] ∧
        (ClusterResourceSet.addResourcesForIAM c).WithIAM = false) ∧
      (api.IsSetAndNonEmptyString c.spec.IAM.ServiceRoleARN = false →
        (ClusterResourceSet.addResourcesForIAM c).rs.template.Resources ≠ [] ∧
        (ClusterResourceSet.addResourcesForIAM c).WithIAM = true)) ∧
    (∀ (routine : RoleRoutine) (n : NodeGroupResourceSet),
      n.rs.template.Resources = [] → n.rs.template.Outputs = [] →
      (NodeGroupResourceSet.addResourcesForIAM routine n).2 = none →
      ((NodeGroupResourceSet.addResourcesForIAM routine n).1.WithIAM = true ↔
        (NodeGroupResourceSet.addResourcesForIAM routine n).1.rs.template.Resources ≠ []) ∧
      (n.spec.IAM.InstanceProfileARN ≠ "" →
        (NodeGroupResourceSet.addResourcesForIAM routine n).1.rs.template.Resources = [] ∧
        (NodeGroupResourceSet.addResourcesForIAM routine n).1.WithIAM = false) ∧
      (n.spec.IAM.InstanceProfileARN = "" →
        (NodeGroupResourceSet.addResourcesForIAM routine n).1.rs.template.Resources ≠ [] ∧
        (NodeGroupResourceSet.addResourcesForIAM routine n).1.WithIAM = true)) := by
  constructor
  · intro c hRes hOut
    have hO : Map.get? c.rs.template.Outputs OutputName.ClusterServiceRoleARN = none := by
      rw [hOut]; rfl
    have hR : ∀ name : String, Map.get? c.rs.template.Resources name = none := by
      intro name; rw [hRes]; rfl
    cases hSet : api.IsSetAndNonEmptyString c.spec.IAM.ServiceRoleARN with
    | true =>
      rw [ClusterResourceSet.plan_external c hSet hO]
      simp [ClusterResourceSet.WithIAM, hRes]
    | false =>
      rw [ClusterResourceSet.plan_created c hSet (hR _) (hR _) (hR _) hO]
      simp [ClusterResourceSet.WithIAM, ClusterResourceSet.createdResources]
  · intro routine n hRes hOut hok
    have hOP : Map.get? n.rs.template.Outputs OutputName.NodeGroupInstanceProfileARN = none := by
      rw [hOut]; rfl
    have hOR : Map.get? n.rs.template.Outputs OutputName.NodeGroupInstanceRoleARN = none := by
      rw [hOut]; rfl
    have hR : Map.get? n.rs.template.Resources cfnIAMInstanceProfileName = none := by
      rw [hRes]; rfl
    by_cases hP : n.spec.IAM.InstanceProfileARN = ""
    · by_cases hRole : n.spec.IAM.InstanceRoleARN = ""
      · have hr : (routine n.rs.template n.clusterSpec.IAM n.spec.IAM false).2 = none := by
          rw [← NodeGroupResourceSet.addResourcesForIAM_managed_error routine n hP hRole]
          exact hok
        have hdecl :=
          (NodeGroupResourceSet.addResourcesForIAM_managed_declared routine n hP hRole hr).1
        have hne : (NodeGroupResourceSet.addResourcesForIAM routine n).1.rs.template.Resources
            ≠ [] := by
          intro hnil
          rw [hnil] at hdecl
          simp [Map.contains, Map.get?] at hdecl
        have hflag := (NodeGroupResourceSet.addResourcesForIAM_flags routine n).1
        simp [NodeGroupResourceSet.WithIAM, hflag, hP, hne]
      · rw [NodeGroupResourceSet.addResourcesForIAM_role_only routine n hP hRole hR hOP hOR]
        simp [NodeGroupResourceSet.WithIAM, hP]
    · by_cases hRole : n.spec.IAM.InstanceRoleARN = ""
      · rw [NodeGroupResourceSet.addResourcesForIAM_profile_only routine n hP hRole hOP]
        simp [NodeGroupResourceSet.WithIAM, hP, hRes]
      · rw [NodeGroupResourceSet.addResourcesForIAM_profile_and_role routine n hP hRole hOP hOR]
        simp [NodeGroupResourceSet.WithIAM, hP, hRes]

/-- Witness of C14 on the empty graph: a cluster without a service role, and a node group with
an external profile. -/
theorem with_iam_iff_resource_declared_witness :
    (sampleCluster none none).rs.template.Resources = [] ∧
    (sampleCluster none none).rs.template.Outputs = [] ∧
    ((ClusterResourceSet.addResourcesForIAM (sampleCluster none none)).WithIAM = true ↔
      (ClusterResourceSet.addResourcesForIAM
        (sampleCluster none none)).rs.template.Resources ≠ []) ∧
    (NodeGroupResourceSet.addResourcesForIAM sampleRoutine
      (sampleNodeGroup "arn:profile:1" "" "")).2 = none ∧
    (NodeGroupResourceSet.addResourcesForIAM sampleRoutine
      (sampleNodeGroup "arn:profile:1" "" "")).1.rs.template.Resources = [] ∧
    (NodeGroupResourceSet.addResourcesForIAM sampleRoutine
      (sampleNodeGroup "arn:profile:1" "" "")).1.WithIAM = false :=
  ⟨rfl, rfl,
    (with_iam_iff_resource_declared.1 (sampleCluster none none) rfl rfl).1,
    by decide,
    ((with_iam_iff_resource_declared.2 sampleRoutine (sampleNodeGroup "arn:profile:1" "" "")
      rfl rfl (by decide)).2.1 (by decide)).1,
    ((with_iam_iff_resource_declared.2 sampleRoutine (sampleNodeGroup "arn:profile:1" "" "")
      rfl rfl (by decide)).2.1 (by decide)).2⟩

/-! ## Reference integrity -/

/-- Reference integrity is kept when resources and outputs are added whose references resolve
in the extended graph. -/
theorem Template.referencesResolve_append (t : Template) (rs : List (String × Resource))
    (os : List (OutputName × Output))
    (ht : t.referencesResolve = true)
    (hrs : ∀ e ∈ rs, ∀ x ∈ e.2.refs, Map.contains (t.Resources ++ rs) x = true)
    (hos : ∀ e ∈ os, ∀ x ∈ e.2.Value.refs, Map.contains (t.Resources ++ rs) x = true) :
    Template.referencesResolve
      { Resources := t.Resources ++ rs, Outputs := t.Outputs ++ os } = true := by
  simp only [Template.referencesResolve, Bool.and_eq_true, List.all_eq_true,
    List.mem_append] at ht ⊢
  refine ⟨?_, ?_⟩
  · intro e he x hx
    rcases he with he | he
    · exact Map.contains_append_of_contains _ _ _ (ht.1 e he x hx)
    · exact hrs e he x hx
  · intro e he x hx
    rcases he with he | he
    · exact Map.contains_append_of_contains _ _ _ (ht.2 e he x hx)
    · exact hos e he x hx

/-- A declaration keeps reference integrity when every reference of the new resource is to
itself or to a resource already declared. -/
theorem resourceSet.newResource_referencesResolve {σ : Type} (r : resourceSet σ)
    (name : String) (resource : Resource)
    (ht : r.template.referencesResolve = true)
    (hrefs : ∀ x ∈ resource.refs, x = name ∨ Map.contains r.template.Resources x = true) :
    (r.newResource name resource).1.template.referencesResolve = true := by
  by_cases hc : Map.contains r.template.Resources name = true
  · rw [resourceSet.newResource_of_used r name resource hc]
    exact ht
  · have hnone : Map.get? r.template.Resources name = none := by
      simpa [Map.contains] using hc
    rw [resourceSet.newResource_of_fresh r name resource hnone]
    have h := Template.referencesResolve_append r.template [(name, resource)] [] ht
      (by
        intro e he x hx
        simp only [List.mem_singleton] at he
        subst he
        rcases hrefs x hx with hx' | hx'
        · subst hx'
          exact Map.contains_append_single_self _ _ _
        · exact Map.contains_append_of_contains _ _ _ hx')
      (by
        intro e he
        simp at he)
    simpa using h

/-- The binding of an output keeps reference integrity when the value of the output refers
only to resources already declared. -/
theorem resourceSet.defineOutput_referencesResolve {σ : Type} (r : resourceSet σ)
    (name : OutputName) (value : Value) (export_ : Bool) (fn : Collector σ)
    (ht : r.template.referencesResolve = true)
    (hrefs : ∀ x ∈ value.refs, Map.contains r.template.Resources x = true) :
    (r.defineOutput name value export_ fn).1.template.referencesResolve = true := by
  by_cases hc : Map.contains r.template.Outputs name = true
  · rw [resourceSet.defineOutput_of_used r name value export_ fn hc]
    exact ht
  · have hnone : Map.get? r.template.Outputs name = none := by
      simpa [Map.contains] using hc
    rw [resourceSet.defineOutput_of_fresh r name value export_ fn hnone]
    have h := Template.referencesResolve_append r.template []
      [(name, { Value := value, Export := export_ })] ht
      (by
        intro e he
        simp at he)
      (by
        intro e he x hx
        simp only [List.mem_singleton] at he
        subst he
        simpa using hrefs x hx)
    simpa using h

/-- C13: reference integrity of the emitted graph, on an initially empty graph.  After the
cluster planner, which has no result, every reference of its graph resolves.  After a
successful run of the node planner every reference resolves, provided that, in the
fully-managed state, the graph the role-creation routine returns declares `NodeInstanceRole`
and has no unresolved reference of its own.  The service-account planner, on the resource set built by
`NewIAMServiceAccountResourceSet`, succeeds and every reference of its graph resolves.  A
reference is the role a policy is attached to, the role an instance profile lists by graph
reference, or the resource an output takes an attribute of. -/
theorem references_resolve :
    (∀ c : ClusterResourceSet,
      c.rs.template.Resources = [] → c.rs.template.Outputs = [] →
      (ClusterResourceSet.addResourcesForIAM c).rs.template.referencesResolve = true) ∧
    (∀ (routine : RoleRoutine) (n : NodeGroupResourceSet),
      n.rs.template.Resources = [] → n.rs.template.Outputs = [] →
      (NodeGroupResourceSet.addResourcesForIAM routine n).2 = none →
      (n.spec.IAM.InstanceProfileARN = "" → n.spec.IAM.InstanceRoleARN = "" →
        Map.contains (routine n.rs.template n.clusterSpec.IAM n.spec.IAM false).1.Resources
          cfnIAMInstanceRoleName = true ∧
        (routine n.rs.template n.clusterSpec.IAM n.spec.IAM false).1.referencesResolve
          = true) →
      (NodeGroupResourceSet.addResourcesForIAM routine n).1.rs.template.referencesResolve
        = true) ∧
    (∀ (spec : ClusterIAMServiceAccount) (oidc : OpenIDConnectManager),
      ((NewIAMServiceAccountResourceSet spec oidc).AddAllResources).2 = none ∧
      ((NewIAMServiceAccountResourceSet spec oidc).AddAllResources).1.template.referencesResolve
        = true) := by
  refine ⟨?_, ?_, ?_⟩
  · intro c hRes hOut
    have hO : Map.get? c.rs.template.Outputs OutputName.ClusterServiceRoleARN = none := by
      rw [hOut]; rfl
    have hR : ∀ name : String, Map.get? c.rs.template.Resources name = none := by
      intro name; rw [hRes]; rfl
    cases hSet : api.IsSetAndNonEmptyString c.spec.IAM.ServiceRoleARN with
    | true =>
      rw [ClusterResourceSet.plan_external c hSet hO]
      simp [Template.referencesResolve, hRes, hOut, Value.refs]
    | false =>
      rw [ClusterResourceSet.plan_created c hSet (hR _) (hR _) (hR _) hO]
      show Template.referencesResolve
        { Resources := c.rs.template.Resources ++ ClusterResourceSet.createdResources c.spec,
          Outputs := c.rs.template.Outputs ++
            [(OutputName.ClusterServiceRoleARN,
              { Value := Value.getAtt "ServiceRole" "Arn", Export := true })] } = true
      rw [hRes, hOut]
      cases hd : api.IsDisabled c.spec.IAM.VPCResourceControllerPolicy <;>
      cases hb : api.IsSetAndNonEmptyString c.spec.IAM.ServiceRolePermissionsBoundary <;>
      simp [Template.referencesResolve, ClusterResourceSet.createdResources,
        ClusterResourceSet.serviceRole, hd, hb, Resource.refs, Value.refs, Value.refsOfList,
        PolicyDocument.refs, makePolicyARNs, makeName, MakeServiceRef, Map.contains, Map.get?]
  · intro routine n hRes hOut hok hroutine
    have hOP : Map.get? n.rs.template.Outputs OutputName.NodeGroupInstanceProfileARN = none := by
      rw [hOut]; rfl
    have hOR : Map.get? n.rs.template.Outputs OutputName.NodeGroupInstanceRoleARN = none := by
      rw [hOut]; rfl
    have hR : Map.get? n.rs.template.Resources cfnIAMInstanceProfileName = none := by
      rw [hRes]; rfl
    by_cases hP : n.spec.IAM.InstanceProfileARN = ""
    · by_cases hRole : n.spec.IAM.InstanceRoleARN = ""
      · obtain ⟨hdecl, hT⟩ := hroutine hP hRole
        have hr : (routine n.rs.template n.clusterSpec.IAM n.spec.IAM false).2 = none := by
          rw [← NodeGroupResourceSet.addResourcesForIAM_managed_error routine n hP hRole]
          exact hok
        rw [NodeGroupResourceSet.addResourcesForIAM_managed_run routine n hP hRole hr]
        apply resourceSet.defineOutput_referencesResolve
        · apply resourceSet.defineOutput_referencesResolve
          · apply resourceSet.newResource_referencesResolve
            · exact hT
            · intro x hx
              simp only [Resource.refs, Value.refs, Value.refsOfList, List.append_nil,
                List.nil_append, List.mem_singleton] at hx
              subst hx
              exact Or.inr hdecl
          · intro x hx
            simp only [Value.refs, List.mem_singleton] at hx
            subst hx
            exact (resourceSet.newResource_declares _ _ _).1
        · intro x hx
          simp only [Value.refs, List.mem_singleton] at hx
          subst hx
          rw [resourceSet.defineOutput_Resources]
          exact (resourceSet.newResource_declares _ _ _).2 _ hdecl
      · rw [NodeGroupResourceSet.addResourcesForIAM_role_only routine n hP hRole hR hOP hOR]
        simp [Template.referencesResolve, hRes, hOut, Resource.refs, Value.refs,
          Value.refsOfList, Map.contains, Map.get?]
    · by_cases hRole : n.spec.IAM.InstanceRoleARN = ""
      · rw [NodeGroupResourceSet.addResourcesForIAM_profile_only routine n hP hRole hOP]
        simp [Template.referencesResolve, hRes, hOut, Value.refs]
      · rw [NodeGroupResourceSet.addResourcesForIAM_profile_and_role routine n hP hRole hOP hOR]
        simp [Template.referencesResolve, hRes, hOut, Value.refs]
  · intro spec oidc
    have hname : cft.resourceNameOf "Role1.Arn" = "Role1" := by decide
    unfold IAMServiceAccountResourceSet.AddAllResources NewIAMServiceAccountResourceSet
    by_cases hA : spec.AttachPolicy = []
    · simp [hA, cft.NewTemplate, cft.Template.NewResource, Map.contains, Map.get?, Map.set,
        cft.Template.referencesResolve, cft.Resource.refs, cft.Value.refs, hname]
    · simp [hA, cft.NewTemplate, cft.Template.NewResource, cft.Template.AttachPolicy,
        Map.contains, Map.get?, Map.set, cft.Template.referencesResolve, cft.Resource.refs,
        cft.Value.refs, cft.Value.refsOfList, hname]

/-- Witness of C13 on the empty graph: a cluster without a service role, and a node group in
the fully-managed state with a routine that declares `NodeInstanceRole`. -/
theorem references_resolve_witness :
    (sampleCluster none none).rs.template.Resources = [] ∧
    (sampleCluster none none).rs.template.Outputs = [] ∧
    (ClusterResourceSet.addResourcesForIAM
      (sampleCluster none none)).rs.template.referencesResolve = true ∧
    (sampleNodeGroup "" "" "").rs.template.Resources = [] ∧
    (sampleNodeGroup "" "" "").rs.template.Outputs = [] ∧
    (NodeGroupResourceSet.addResourcesForIAM sampleRoutine (sampleNodeGroup "" "" "")).2 = none ∧
    Map.contains (sampleRoutine (sampleNodeGroup "" "" "").rs.template
      (sampleNodeGroup "" "" "").clusterSpec.IAM (sampleNodeGroup "" "" "").spec.IAM false).1.Resources
      cfnIAMInstanceRoleName = true ∧
    (sampleRoutine (sampleNodeGroup "" "" "").rs.template
      (sampleNodeGroup "" "" "").clusterSpec.IAM
      (sampleNodeGroup "" "" "").spec.IAM false).1.referencesResolve = true ∧
    (NodeGroupResourceSet.addResourcesForIAM sampleRoutine
      (sampleNodeGroup "" "" "")).1.rs.template.referencesResolve = true :=
  ⟨rfl, rfl,
    references_resolve.1 (sampleCluster none none) rfl rfl,
    rfl, rfl, by decide, by decide, by decide,
    references_resolve.2.1 sampleRoutine (sampleNodeGroup "" "" "") rfl rfl (by decide)
      (fun _ _ => ⟨by decide, by decide⟩)⟩

/-! ## Node group: where an error can come from -/

/-- In the fully-managed state, when the role-creation routine fails, planning stops with its
error, in the state the routine left. -/
theorem NodeGroupResourceSet.addResourcesForIAM_managed_failed (routine : RoleRoutine)
    (n : NodeGroupResourceSet)
    (hP : n.spec.IAM.InstanceProfileARN = "") (hR : n.spec.IAM.InstanceRoleARN = "")
    (err : Error)
    (hr : (routine n.rs.template n.clusterSpec.IAM n.spec.IAM false).2 = some err) :
    NodeGroupResourceSet.addResourcesForIAM routine n
      = ({ n with rs := {
            template := (routine n.rs.template n.clusterSpec.IAM n.spec.IAM false).1
            outputs := n.rs.outputs
            withIAM := true
            withNamedIAM :=
              if n.spec.IAM.InstanceRoleName ≠ "" then true else n.rs.withNamedIAM } },
          some err) := by
  unfold NodeGroupResourceSet.addResourcesForIAM
  by_cases hN : n.spec.IAM.InstanceRoleName = "" <;>
  simp [hP, hR, hN, createRole, hr]

/-- When a profile or a role is supplied, planning returns no error, whatever the graph holds. -/
theorem NodeGroupResourceSet.addResourcesForIAM_external_error (routine : RoleRoutine)
    (n : NodeGroupResourceSet)
    (hstate : n.spec.IAM.InstanceProfileARN ≠ "" ∨ n.spec.IAM.InstanceRoleARN ≠ "") :
    (NodeGroupResourceSet.addResourcesForIAM routine n).2 = none := by
  unfold NodeGroupResourceSet.addResourcesForIAM
  by_cases hP : n.spec.IAM.InstanceProfileARN = "" <;>
  by_cases hR : n.spec.IAM.InstanceRoleARN = "" <;>
  simp [hP, hR] at hstate ⊢

/-- When a profile or a role is supplied, planning does not depend on the role-creation
routine. -/
theorem NodeGroupResourceSet.addResourcesForIAM_external_routine (routine routine' : RoleRoutine)
    (n : NodeGroupResourceSet)
    (hstate : n.spec.IAM.InstanceProfileARN ≠ "" ∨ n.spec.IAM.InstanceRoleARN ≠ "") :
    NodeGroupResourceSet.addResourcesForIAM routine' n
      = NodeGroupResourceSet.addResourcesForIAM routine n := by
  unfold NodeGroupResourceSet.addResourcesForIAM
  by_cases hP : n.spec.IAM.InstanceProfileARN = "" <;>
  by_cases hR : n.spec.IAM.InstanceRoleARN = "" <;>
  simp [hP, hR] at hstate ⊢

/-- The graph and the flags after the binding of an output do not depend on the write-back. -/
theorem resourceSet.defineOutput_collector_free {σ : Type} (r : resourceSet σ)
    (name : OutputName) (value : Value) (export_ : Bool) (fn fn' : Collector σ) :
    (r.defineOutput name value export_ fn).1.template
      = (r.defineOutput name value export_ fn').1.template ∧
    (r.defineOutput name value export_ fn).1.withIAM
      = (r.defineOutput name value export_ fn').1.withIAM ∧
    (r.defineOutput name value export_ fn).1.withNamedIAM
      = (r.defineOutput name value export_ fn').1.withNamedIAM := by
  by_cases hc : Map.contains r.template.Outputs name = true <;>
  simp [resourceSet.defineOutput, hc]

/-- When a profile or a role is supplied, the graph, the flags and the specification after
planning do not depend on the role-import collaborator. -/
theorem NodeGroupResourceSet.addResourcesForIAM_external_provider (routine : RoleRoutine)
    (n : NodeGroupResourceSet) (provider' : Provider)
    (hstate : n.spec.IAM.InstanceProfileARN ≠ "" ∨ n.spec.IAM.InstanceRoleARN ≠ "") :
    (NodeGroupResourceSet.addResourcesForIAM routine
        { n with provider := provider' }).1.rs.template
      = (NodeGroupResourceSet.addResourcesForIAM routine n).1.rs.template ∧
    (NodeGroupResourceSet.addResourcesForIAM routine
        { n with provider := provider' }).1.WithIAM
      = (NodeGroupResourceSet.addResourcesForIAM routine n).1.WithIAM ∧
    (NodeGroupResourceSet.addResourcesForIAM routine
        { n with provider := provider' }).1.WithNamedIAM
      = (NodeGroupResourceSet.addResourcesForIAM routine n).1.WithNamedIAM ∧
    (NodeGroupResourceSet.addResourcesForIAM routine
        { n with provider := provider' }).1.spec
      = (NodeGroupResourceSet.addResourcesForIAM routine n).1.spec := by
  unfold NodeGroupResourceSet.addResourcesForIAM
  by_cases hP : n.spec.IAM.InstanceProfileARN = ""
  · by_cases hR : n.spec.IAM.InstanceRoleARN = ""
    · simp [hP, hR] at hstate
    · simp [hP, hR, NodeGroupResourceSet.WithIAM, NodeGroupResourceSet.WithNamedIAM,
        NodeGroupResourceSet.newResource]
  · by_cases hR : n.spec.IAM.InstanceRoleARN = ""
    · simp only [hP, hR, ne_eq, not_false_eq_true, not_true_eq_false, if_true, if_false,
        NodeGroupResourceSet.WithIAM, NodeGroupResourceSet.WithNamedIAM]
      exact ⟨(resourceSet.defineOutput_collector_free _ _ _ _ _ _).1,
        (resourceSet.defineOutput_collector_free _ _ _ _ _ _).2.1,
        (resourceSet.defineOutput_collector_free _ _ _ _ _ _).2.2, trivial⟩
    · simp [hP, hR, NodeGroupResourceSet.WithIAM, NodeGroupResourceSet.WithNamedIAM]

/-- C15: `addResourcesForIAM` returns an error exactly when `createRole` is reached and returns
one, and it is that same error; in that case the graph is the one the routine left, so
`NodeInstanceProfile` is not declared by the planner, and no output is bound.  Whenever a
profile or a role identifier is supplied, planning returns no error, does not depend on the
role-creation routine, and does not depend on the role-import collaborator: with any other
collaborator the error result, the graph, the flags and the specification are the same; the
lookup is only stored, as the write-back of the profile-ARN output.  All of this holds for every
graph the planner starts from and every role-creation routine. -/
theorem node_error_only_from_create_role (routine : RoleRoutine) (n : NodeGroupResourceSet) :
    ((NodeGroupResourceSet.addResourcesForIAM routine n).2 ≠ none ↔
      n.spec.IAM.InstanceProfileARN = "" ∧ n.spec.IAM.InstanceRoleARN = "" ∧
      (routine n.rs.template n.clusterSpec.IAM n.spec.IAM false).2 ≠ none) ∧
    (n.spec.IAM.InstanceProfileARN = "" → n.spec.IAM.InstanceRoleARN = "" →
      (NodeGroupResourceSet.addResourcesForIAM routine n).2
        = (routine n.rs.template n.clusterSpec.IAM n.spec.IAM false).2) ∧
    (n.spec.IAM.InstanceProfileARN = "" → n.spec.IAM.InstanceRoleARN = "" →
      (routine n.rs.template n.clusterSpec.IAM n.spec.IAM false).2 ≠ none →
      (NodeGroupResourceSet.addResourcesForIAM routine n).1.rs.template
        = (routine n.rs.template n.clusterSpec.IAM n.spec.IAM false).1 ∧
      (NodeGroupResourceSet.addResourcesForIAM routine n).1.rs.outputs = n.rs.outputs) ∧
    (n.spec.IAM.InstanceProfileARN ≠ "" ∨ n.spec.IAM.InstanceRoleARN ≠ "" →
      (NodeGroupResourceSet.addResourcesForIAM routine n).2 = none ∧
      (∀ routine' : RoleRoutine,
        NodeGroupResourceSet.addResourcesForIAM routine' n
          = NodeGroupResourceSet.addResourcesForIAM routine n) ∧
      (∀ provider' : Provider,
        (NodeGroupResourceSet.addResourcesForIAM routine { n with provider := provider' }).2
          = none ∧
        (NodeGroupResourceSet.addResourcesForIAM routine
            { n with provider := provider' }).1.rs.template
          = (NodeGroupResourceSet.addResourcesForIAM routine n).1.rs.template ∧
        (NodeGroupResourceSet.addResourcesForIAM routine
            { n with provider := provider' }).1.WithIAM
          = (NodeGroupResourceSet.addResourcesForIAM routine n).1.WithIAM ∧
        (NodeGroupResourceSet.addResourcesForIAM routine
            { n with provider := provider' }).1.WithNamedIAM
          = (NodeGroupResourceSet.addResourcesForIAM routine n).1.WithNamedIAM ∧
        (NodeGroupResourceSet.addResourcesForIAM routine
            { n with provider := provider' }).1.spec
          = (NodeGroupResourceSet.addResourcesForIAM routine n).1.spec)) ∧
    (n.spec.IAM.InstanceProfileARN ≠ "" → n.spec.IAM.InstanceRoleARN = "" →
      Map.get? (NodeGroupResourceSet.addResourcesForIAM routine n).1.rs.outputs
          OutputName.NodeGroupInstanceProfileARN
        = some (fun v spec => iam.ImportInstanceRoleFromProfileARN n.provider spec v)) := by
  have hman := NodeGroupResourceSet.addResourcesForIAM_managed_error routine n
  have hext := NodeGroupResourceSet.addResourcesForIAM_external_error routine n
  refine ⟨?_, hman, ?_, ?_, ?_⟩
  · constructor
    · intro herr
      by_cases hP : n.spec.IAM.InstanceProfileARN = ""
      · by_cases hR : n.spec.IAM.InstanceRoleARN = ""
        · exact ⟨hP, hR, by rw [← hman hP hR]; exact herr⟩
        · exact absurd (hext (Or.inr hR)) herr
      · exact absurd (hext (Or.inl hP)) herr
    · rintro ⟨hP, hR, hr⟩
      rw [hman hP hR]
      exact hr
  · intro hP hR hr
    cases hr' : (routine n.rs.template n.clusterSpec.IAM n.spec.IAM false).2 with
    | none => exact absurd hr' hr
    | some err =>
      rw [NodeGroupResourceSet.addResourcesForIAM_managed_failed routine n hP hR err hr']
      exact ⟨rfl, rfl⟩
  · intro hstate
    refine ⟨hext hstate, fun routine' => ?_, fun provider' => ⟨?_, ?_⟩⟩
    · exact NodeGroupResourceSet.addResourcesForIAM_external_routine routine routine' n hstate
    · exact NodeGroupResourceSet.addResourcesForIAM_external_error routine
        { n with provider := provider' } hstate
    · exact NodeGroupResourceSet.addResourcesForIAM_external_provider routine n provider' hstate
  · intro hP hR
    unfold NodeGroupResourceSet.addResourcesForIAM
    simp only [hP, hR, ne_eq, not_false_eq_true, not_true_eq_false, if_true, if_false,
      resourceSet.defineOutput_outputs]
    exact Map.get?_set_self _ _ _

/-- Witness of C15: a failing routine in the fully-managed state gives its error; a routine
that succeeds and has already declared `NodeInstanceProfile` gives no error; an external role on
a graph that already holds `NodeInstanceProfile` gives no error. -/
theorem node_error_only_from_create_role_witness :
    (sampleNodeGroup "" "" "").spec.IAM.InstanceProfileARN = "" ∧
    (sampleNodeGroup "" "" "").spec.IAM.InstanceRoleARN = "" ∧
    (NodeGroupResourceSet.addResourcesForIAM failingRoutine (sampleNodeGroup "" "" "")).2
      = some (Error.other "cannot create the node role") ∧
    (NodeGroupResourceSet.addResourcesForIAM failingRoutine
      (sampleNodeGroup "" "" "")).1.rs.template.Resources = [] ∧
    Map.contains (crowdingRoutine (sampleNodeGroup "" "" "").rs.template
      (sampleNodeGroup "" "" "").clusterSpec.IAM
      (sampleNodeGroup "" "" "").spec.IAM false).1.Resources "NodeInstanceProfile" = true ∧
    (NodeGroupResourceSet.addResourcesForIAM crowdingRoutine (sampleNodeGroup "" "" "")).2
      = none ∧
    samplePlannedNodeGroup.spec.IAM.InstanceRoleARN ≠ "" ∧
    Map.contains samplePlannedNodeGroup.rs.template.Resources "NodeInstanceProfile" = true ∧
    (NodeGroupResourceSet.addResourcesForIAM sampleRoutine samplePlannedNodeGroup).2 = none :=
  ⟨rfl, rfl,
    (node_error_only_from_create_role failingRoutine (sampleNodeGroup "" "" "")).2.1 rfl rfl,
    by decide, by decide,
    (node_error_only_from_create_role crowdingRoutine (sampleNodeGroup "" "" "")).2.1 rfl rfl,
    by decide, by decide,
    ((node_error_only_from_create_role sampleRoutine samplePlannedNodeGroup).2.2.2.1
      (Or.inr (by decide))).1⟩

/-! ## Duplicate names -/

end Builder
